import Mathlib

/-!
Verification model of the Enigma2 SmartHomeNG plugin (`src/enigma2/__init__.py`).

The plugin synchronizes item bindings with an enigma2 set-top box over an
HTTP+XML API.  We give a shallow embedding of the engine: network fetches are
an oracle stream of outcomes (`Option String`, `none` = transport exception),
XML parsing (`xml.dom.minidom`, an external collaborator of the core) is a
given service `Env.parse`, and item value slots are an explicit store.
Uncaught Python exceptions are modelled with `Except PyErr`; every operation
returns the engine state alongside the result, so mutations performed before
an exception are kept, exactly as in Python.
-/

namespace Enigma2Model

/-- Kinds of uncaught Python exceptions the embedded code can raise. -/
inductive PyErr where
  | keyError
  | nameError
  | attributeError
  | typeError
  | valueError
deriving DecidableEq, Repr

/-- Values written to an item slot by `item(value)` calls.  `vFloat src`
represents the Python value `float(src)`; we keep the source text so that no
floating-point semantics is needed. -/
inductive PyVal where
  | vInt (i : Int)
  | vFloat (src : String)
  | vStr (s : String)
deriving DecidableEq, Repr

/-- A node of a parsed XML response, mirroring the fragment of the
`xml.dom.minidom` tree the plugin touches: element nodes with children and
text nodes carrying `.data`.  A whole parsed document is represented as a
wrapper element with tag `"#document"` holding the root element, so that
`getElementsByTagName` (which searches strict descendants of the receiver)
behaves correctly both on documents and on element nodes. -/
inductive Xml where
  | elem (tag : String) (children : List Xml)
  | text (data : String)
deriving Repr

/-- Connection parameters of the `Enigma2Device`. -/
structure Device where
  host : String
  port : String
  ssl : Bool
  username : String
  password : String
  identifier : String

/-- External services: `parse` is `minidom.parseString`, `none` meaning the
parse raised. -/
structure Env where
  parse : String → Option Xml

/-- A subscribed binding: configuration dictionary (`item.conf`), declared
value kind (`item.type()`), and the identity of the externally owned value
slot it writes to. -/
structure Item where
  id : Nat
  conf : List (String × String)
  ty : String

/-- Engine state: the response cache (`self._response_cache`), the network
oracle (`net n` is the outcome of the `n`-th HTTP GET of the session, `none`
meaning the request raised), the count of GETs performed so far, a log of the
URLs fetched, a log of the cache keys for which `_cached_get_request`
actually performed a network fetch, the item value slots, and the
running/stopped flag (`self.alive`). -/
structure EngineState where
  cache : List (String × String)
  net : Nat → Option String
  fetchCount : Nat
  fetchLog : List String
  keyFetchLog : List String
  slots : List (Nat × PyVal)
  alive : Bool

/-- Top-level resolution passes initiated directly by the command dispatcher
(`execute_item`); used to state what a dispatch triggers. -/
inductive Call where
  | remote (commandId : String)
  | eventUpdate (cacheFlag : Bool)
  | fastLoop (cacheFlag : Bool)
  | zapTo (sref : String)
deriving DecidableEq, Repr

/-- One entry of the `get_audio_tracks` result: a Python dict whose keys are
only present when the corresponding XML field was found. -/
structure AudioTrack where
  description : Option String
  trackId : Option Int
  pid : Option Int
  active : Option Bool
deriving DecidableEq, Repr

/-! Association-list helpers standing in for Python dict lookup and
assignment. -/

/-- Python `d[k]` as an option (first matching key). -/
def alistGet : List (String × String) → String → Option String
  | [], _ => none
  | (k, v) :: rest, key => if k == key then some v else alistGet rest key

/-- Python `d[k] = v`: replace the binding for `k`, or append it. -/
def dictSet : List (String × String) → String → String → List (String × String)
  | [], k, v => [(k, v)]
  | (k', v') :: rest, k, v =>
      if k' == k then (k, v) :: rest else (k', v') :: dictSet rest k v

/-- Lookup of an item value slot. -/
def slotGet : List (Nat × PyVal) → Nat → Option PyVal
  | [], _ => none
  | (j, w) :: rest, i => if j == i then some w else slotGet rest i

/-- Write-back to an item value slot (the effect of `item(value)`). -/
def slotSet : List (Nat × PyVal) → Nat → PyVal → List (Nat × PyVal)
  | [], i, v => [(i, v)]
  | (j, w) :: rest, i, v =>
      if j == i then (i, v) :: rest else (j, w) :: slotSet rest i v

/-! Python string containment, `a in b` on strings. -/

/-- Whether `a` is a leading segment of `b`. -/
def startsWithList : List Char → List Char → Bool
  | [], _ => true
  | _ :: _, [] => false
  | a :: as, b :: bs => a == b && startsWithList as bs

/-- Whether `a` occurs as a contiguous segment of `b`. -/
def substringList (a : List Char) : List Char → Bool
  | [] => match a with | [] => true | _ :: _ => false
  | b :: bs => startsWithList a (b :: bs) || substringList a bs

/-- Python `a in b` for strings: contiguous-substring containment. -/
def pyIn (a b : String) : Bool := substringList a.data b.data

/-! Python `int()` and `float()` applied to strings, as used by
`_represents_int` / `_represents_float` and the numeric write-back. -/

/-- ASCII whitespace stripped by Python numeric conversions. -/
def pyWhitespace (c : Char) : Bool :=
  c == ' ' || c == '\t' || c == '\n' || c == '\r' || c == '\x0b' || c == '\x0c'

/-- Strip leading and trailing whitespace from a character list. -/
def stripWs (l : List Char) : List Char :=
  ((l.dropWhile pyWhitespace).reverse.dropWhile pyWhitespace).reverse

/-- Tail of a digit run: digits with single underscores allowed between
digits. -/
def digitsTail : List Char → Bool
  | [] => true
  | '_' :: [] => false
  | '_' :: c :: rest => c.isDigit && digitsTail rest
  | c :: rest => c.isDigit && digitsTail rest

/-- A non-empty digit run with single underscores allowed between digits. -/
def digitRun : List Char → Bool
  | [] => false
  | c :: rest => c.isDigit && digitsTail rest

/-- An optionally signed digit run. -/
def signedDigitRun : List Char → Bool
  | '+' :: rest => digitRun rest
  | '-' :: rest => digitRun rest
  | l => digitRun l

/-- Whether Python `int(s)` succeeds, the body of `_represents_int`. -/
def represents_int (s : String) : Bool :=
  signedDigitRun (stripWs s.data)

/-- Numeric value of a digit run, ignoring underscores. -/
def digitsVal (l : List Char) : Nat :=
  l.foldl (fun a c => if c == '_' then a else a * 10 + (c.toNat - 48)) 0

/-- The value Python `int(s)` returns when it succeeds. -/
def py_int_parse (s : String) : Int :=
  match stripWs s.data with
  | '+' :: rest => (digitsVal rest : Int)
  | '-' :: rest => -(digitsVal rest : Int)
  | l => (digitsVal l : Int)

/-- Consume a maximal digit run (with inner underscores), returning the
remainder; `none` when no digit is consumed. -/
def chompMore : List Char → List Char
  | '_' :: c :: rest => if c.isDigit then chompMore rest else '_' :: c :: rest
  | c :: rest => if c.isDigit then chompMore rest else c :: rest
  | [] => []

/-- Leading digit run with underscores; `none` if the list does not start
with a digit. -/
def chompDigits : List Char → Option (List Char)
  | c :: rest => if c.isDigit then some (chompMore rest) else none
  | [] => none

/-- An optional exponent part closing a float literal. -/
def expTail : List Char → Bool
  | [] => true
  | c :: rest =>
      if c == 'e' || c == 'E' then
        let r := match rest with
          | s :: r2 => if s == '+' || s == '-' then r2 else s :: r2
          | [] => []
        match chompDigits r with
        | some [] => true
        | _ => false
      else false

/-- The numeric body of a Python float literal (after sign): digits with an
optional fraction, or a leading dot with digits, then an optional
exponent. -/
def floatBody (l : List Char) : Bool :=
  match l with
  | '.' :: rest =>
      match chompDigits rest with
      | some r => expTail r
      | none => false
  | _ =>
      match chompDigits l with
      | none => false
      | some r =>
          match r with
          | '.' :: r2 =>
              match chompDigits r2 with
              | some r3 => expTail r3
              | none => expTail r2
          | _ => expTail r

/-- Whether Python `float(s)` succeeds, the body of `_represents_float`. -/
def represents_float (s : String) : Bool :=
  let l := stripWs s.data
  let core := match l with
    | '+' :: r => r
    | '-' :: r => r
    | _ => l
  let low := core.map Char.toLower
  if low == "inf".data || low == "infinity".data || low == "nan".data then true
  else floatBody core

/-! The minidom fragment used by the plugin. -/

mutual

/-- All elements with the given tag in the subtree rooted at a node,
including the node itself, in document order. -/
def xmlSubtreeByTag (tag : String) : Xml → List Xml
  | .text _ => []
  | .elem t cs => (if t == tag then [Xml.elem t cs] else []) ++ xmlListByTag tag cs

/-- All elements with the given tag in a forest, in document order. -/
def xmlListByTag (tag : String) : List Xml → List Xml
  | [] => []
  | x :: xs => xmlSubtreeByTag tag x ++ xmlListByTag tag xs

end

/-- `node.getElementsByTagName(tag)`: matching elements among the strict
descendants of the receiver. -/
def Xml.getElems (x : Xml) (tag : String) : List Xml :=
  match x with
  | .text _ => []
  | .elem _ cs => xmlListByTag tag cs

/-- `node.firstChild`, `none` for `None`. -/
def Xml.firstChild : Xml → Option Xml
  | .elem _ (c :: _) => some c
  | _ => none

/-- `self._get_value_from_xml_node(node, tag_name)` (lines 609-615): find the
first element with the tag; if it has a first child, read its `.data`.  An
element first child has no `.data` attribute, which raises. -/
def get_value_from_xml_node (node : Xml) (tagName : String) :
    Except PyErr (Option String) :=
  match node.getElems tagName with
  | [] => .ok none
  | e :: _ =>
      match e.firstChild with
      | none => .ok none
      | some (.text d) => .ok (some d)
      | some (.elem _ _) => .error .attributeError

/-! Engine constants (lines 130-145). -/

/-- `Enigma2._url_suffix_map`. -/
def url_suffix_map (k : String) : Option String :=
  if k == "about" then some "/web/about"
  else if k == "deviceinfo" then some "/web/deviceinfo"
  else if k == "epgservice" then some "/web/epgservice"
  else if k == "getaudiotracks" then some "/web/getaudiotracks"
  else if k == "getcurrent" then some "/web/getcurrent"
  else if k == "message" then some "/web/message"
  else if k == "messageanswer" then some "/web/messageanswer"
  else if k == "powerstate" then some "/web/powerstate"
  else if k == "remotecontrol" then some "/web/remotecontrol"
  else if k == "subservices" then some "/web/subservices"
  else if k == "zap" then some "/web/zap"
  else none

/-- `Enigma2._keys_fast_refresh`. -/
def keys_fast_refresh : List String :=
  ["current_eventtitle", "current_eventdescription", "current_eventdescriptionextended",
   "current_volume", "e2servicename", "e2videoheight", "e2videowidth", "e2apid", "e2vpid",
   "e2instandby"]

/-- `Enigma2._key_event_information`. -/
def key_event_information : List String :=
  ["current_eventtitle", "current_eventdescription", "current_eventdescriptionextended"]

/-- `Enigma2._build_url` (lines 202-214). -/
def build_url (d : Device) (suffix : String) (parameter : String) : String :=
  (if d.ssl then "https" else "http") ++ "://" ++ d.host ++ ":" ++ d.port
    ++ suffix ++ "?" ++ parameter

/-! Engine operations. -/

/-- One `self._session.get(url, ...)` round-trip: consume the next outcome of
the network oracle and log the URL. -/
def sessionGet (url : String) (s : EngineState) : Option String × EngineState :=
  (s.net s.fetchCount,
   { s with fetchCount := s.fetchCount + 1, fetchLog := s.fetchLog ++ [url] })

/-- `Enigma2._cached_get_request` (lines 595-607): fetch unless the key is
cached and caching is requested; a transport exception is caught and leaves
the cache untouched; a successful fetch stores the body under the key.  The
key is logged in `keyFetchLog` whenever a network fetch is attempted. -/
def cached_get_request (cacheKey url : String) (cacheFlag : Bool)
    (s : EngineState) : EngineState :=
  if (alistGet s.cache cacheKey).isNone || !cacheFlag then
    match sessionGet url s with
    | (none, s1) => { s1 with keyFetchLog := s1.keyFetchLog ++ [cacheKey] }
    | (some content, s1) =>
        { s1 with cache := dictSet s1.cache cacheKey content,
                  keyFetchLog := s1.keyFetchLog ++ [cacheKey] }
  else s

/-- The effect of `item(value)`: write the bound value slot. -/
def writeSlot (s : EngineState) (it : Item) (v : PyVal) : EngineState :=
  { s with slots := slotSet s.slots it.id v }

/-- `Enigma2._update` (lines 547-593): generic page-addressed resolution.
Missing `enigma2_data_type` only logs; a missing `enigma2_page` key or an
unknown page raises `KeyError` (lines 558-560, outside any `try`); fetch and
parse failures are caught by the `try` around `minidom.parseString(
self._response_cache[page])`; a missing attribute only logs; the kind
branches mirror lines 568-593, where `.data` on an element first child
raises `AttributeError`. -/
def update (env : Env) (d : Device) (it : Item) (cacheFlag : Bool)
    (s : EngineState) : Except PyErr Unit × EngineState :=
  match alistGet it.conf "enigma2_data_type" with
  | none => (.ok (), s)
  | some dt =>
    match alistGet it.conf "enigma2_page" with
    | none => (.error .keyError, s)
    | some page =>
      match url_suffix_map page with
      | none => (.error .keyError, s)
      | some sfx =>
        let url := build_url d sfx ""
        let s1 := cached_get_request page url cacheFlag s
        match alistGet s1.cache page with
        | none => (.ok (), s1)
        | some content =>
          match env.parse content with
          | none => (.ok (), s1)
          | some xml =>
            match xml.getElems dt with
            | [] => (.ok (), s1)
            | e :: _ =>
              if it.ty == "bool" then
                match e.firstChild with
                | none => (.ok (), s1)
                | some (.elem _ _) => (.error .attributeError, s1)
                | some (.text t) =>
                  if t == "true" || t == "True" then
                    (.ok (), writeSlot s1 it (.vInt 1))
                  else (.ok (), writeSlot s1 it (.vInt 0))
              else if it.ty == "num" then
                match e.firstChild with
                | none => (.ok (), s1)
                | some (.elem _ _) => (.error .attributeError, s1)
                | some (.text t) =>
                  if represents_int t then
                    (.ok (), writeSlot s1 it (.vInt (py_int_parse t)))
                  else if represents_float t then
                    (.ok (), writeSlot s1 it (.vFloat t))
                  else (.ok (), s1)
              else
                match e.firstChild with
                | none => (.ok (), writeSlot s1 it (.vStr "-"))
                | some (.elem _ _) => (.error .attributeError, s1)
                | some (.text t) =>
                  if t == "N/A" then (.ok (), writeSlot s1 it (.vStr "-"))
                  else (.ok (), writeSlot s1 it (.vStr t))

/-- `Enigma2._update_volume` (lines 431-448): direct (uncached) fetch of the
`getcurrent` page; the `cache` parameter is accepted but unused, as in the
source.  `self.logger.debug("Volume "+volume)` raises `TypeError` when the
field is missing (`volume` is `None`). -/
def update_volume (env : Env) (d : Device) (it : Item) (_cacheFlag : Bool)
    (s : EngineState) : Except PyErr Unit × EngineState :=
  let url := build_url d "/web/getcurrent" ""
  let (res, s1) := sessionGet url s
  match res with
  | none => (.ok (), s1)
  | some content =>
    match env.parse content with
    | none => (.ok (), s1)
    | some xml =>
      match get_value_from_xml_node xml "e2current" with
      | .error er => (.error er, s1)
      | .ok none => (.error .typeError, s1)
      | .ok (some v) => (.ok (), writeSlot s1 it (.vStr v))

/-- `Enigma2.get_current_epgservice_for_service_reference` (lines 503-545):
direct (uncached) fetch of the `epgservice` page for the given reference;
fetch and parse failures return `None`; no `e2event` yields the empty dict;
otherwise the three event fields are extracted, each defaulted to `"-"`. -/
def get_current_epgservice_for_service_reference (env : Env) (d : Device)
    (serviceReference : String) (s : EngineState) :
    Except PyErr (Option (List (String × String))) × EngineState :=
  let url := build_url d "/web/epgservice" ("sRef=" ++ serviceReference)
  let (res, s1) := sessionGet url s
  match res with
  | none => (.ok none, s1)
  | some content =>
    match env.parse content with
    | none => (.ok none, s1)
    | some xml =>
      match xml.getElems "e2event" with
      | [] => (.ok (some []), s1)
      | ev :: _ =>
        match get_value_from_xml_node ev "e2eventdescription" with
        | .error er => (.error er, s1)
        | .ok d1 =>
          match get_value_from_xml_node ev "e2eventdescriptionextended" with
          | .error er => (.error er, s1)
          | .ok d2 =>
            match get_value_from_xml_node ev "e2eventtitle" with
            | .error er => (.error er, s1)
            | .ok d3 =>
              (.ok (some [("e2eventdescription", d1.getD "-"),
                          ("e2eventdescriptionextended", d2.getD "-"),
                          ("e2eventtitle", d3.getD "-")]), s1)

/-- Subscript of the `current_epgservice` dict (`current_epgservice[key]`,
lines 497-501): subscripting `None` raises `TypeError`, a missing key raises
`KeyError`; on success the value is written to the item slot. -/
def epgSubscriptWrite (epg : Option (List (String × String))) (key : String)
    (it : Item) (s : EngineState) : Except PyErr Unit × EngineState :=
  match epg with
  | none => (.error .typeError, s)
  | some dict =>
    match alistGet dict key with
    | none => (.error .keyError, s)
    | some v => (.ok (), writeSlot s it (.vStr v))

/-- Lines 483-489 of `_update_current_event`: when the resolved service
reference is the sentinel `'N/A'` or contains the reserved
`'1:0:0:0:0:0:0:0:0:0'` pattern, synthesize the default event record with all
three fields `'-'`; otherwise issue the secondary EPG request. -/
def epgStep (env : Env) (d : Device) (sref : String) (s : EngineState) :
    Except PyErr (Option (List (String × String))) × EngineState :=
  if !(sref == "N/A") && !(pyIn "1:0:0:0:0:0:0:0:0:0" sref) then
    get_current_epgservice_for_service_reference env d sref s
  else
    (.ok (some [("e2eventtitle", "-"), ("e2eventdescription", "-"),
                ("e2eventdescriptionextended", "-")]), s)

/-- Lines 491-495 of `_update_current_event`: for the `e2servicename` data
type, extract the service name from the subservices response, normalizing
`None` and `'N/A'` to `'-'`, and write it back. -/
def servicenameWrite (xml : Xml) (dt : String) (it : Item)
    (s : EngineState) : Except PyErr EngineState :=
  if dt == "e2servicename" then
    match get_value_from_xml_node xml "e2servicename" with
    | .error er => .error er
    | .ok none => .ok (writeSlot s it (.vStr "-"))
    | .ok (some w) =>
        .ok (writeSlot s it (.vStr (if w == "N/A" then "-" else w)))
  else .ok s

/-- `Enigma2._update_current_event` (lines 456-501).  The subservices page is
fetched through the cache; fetch/parse failures are caught.  When the
response has no `e2servicereference` element, the code logs "Attribute not
available" but then evaluates the never-assigned local `e2servicereference`
on line 483, raising `UnboundLocalError` (a `NameError`).  Line 478 reads
`.firstChild.data` without a `None` check, raising `AttributeError` on an
empty element.  The sentinel test and the dispatch on the data type mirror
lines 483-501. -/
def update_current_event (env : Env) (d : Device) (it : Item)
    (cacheFlag : Bool) (s : EngineState) : Except PyErr Unit × EngineState :=
  let url := build_url d "/web/subservices" ""
  match alistGet it.conf "enigma2_data_type" with
  | none => (.ok (), s)
  | some dt =>
    let s1 := cached_get_request "subservices" url cacheFlag s
    match alistGet s1.cache "subservices" with
    | none => (.ok (), s1)
    | some content =>
      match env.parse content with
      | none => (.ok (), s1)
      | some xml =>
        match xml.getElems "e2servicereference" with
        | [] => (.error .nameError, s1)
        | e :: _ =>
          match e.firstChild with
          | none => (.error .attributeError, s1)
          | some (.elem _ _) => (.error .attributeError, s1)
          | some (.text sref) =>
            match epgStep env d sref s1 with
            | (.error er, s2) => (.error er, s2)
            | (.ok epg, s2) =>
              match servicenameWrite xml dt it s2 with
              | .error er => (.error er, s2)
              | .ok s3 =>
                if dt == "current_eventtitle" then
                  epgSubscriptWrite epg "e2eventtitle" it s3
                else if dt == "current_eventdescription" then
                  epgSubscriptWrite epg "e2eventdescription" it s3
                else if dt == "current_eventdescriptionextended" then
                  epgSubscriptWrite epg "e2eventdescriptionextended" it s3
                else (.ok (), s3)

/-- `Enigma2._update_event_items` (lines 450-454): resolve every fast item of
the current-event family.  Reading `item.conf['enigma2_data_type']` raises
`KeyError` when absent. -/
def update_event_items (env : Env) (d : Device) (fastItems : List Item)
    (cacheFlag : Bool) (s : EngineState) : Except PyErr Unit × EngineState :=
  match fastItems with
  | [] => (.ok (), s)
  | it :: rest =>
    match alistGet it.conf "enigma2_data_type" with
    | none => (.error .keyError, s)
    | some dt =>
      if dt == "current_eventtitle" || dt == "current_eventdescription" ||
         dt == "current_eventdescriptionextended" || dt == "e2servicename" then
        match update_current_event env d it cacheFlag s with
        | (.error er, s1) => (.error er, s1)
        | (.ok _, s1) => update_event_items env d rest cacheFlag s1
      else update_event_items env d rest cacheFlag s

/-- `Enigma2._update_loop` (lines 216-227): iterate the slow registry,
stopping (with a bare `return`, which skips the cache clear) as soon as
`self.alive` is false; the cache is emptied only after the loop completes. -/
def update_loop (env : Env) (d : Device) (items : List Item)
    (s : EngineState) : Except PyErr Unit × EngineState :=
  match items with
  | [] => (.ok (), { s with cache := [] })
  | it :: rest =>
    if s.alive then
      match update env d it true s with
      | (.error er, s1) => (.error er, s1)
      | (.ok _, s1) => update_loop env d rest s1
    else (.ok (), s)

/-- Per-item dispatch of `Enigma2._update_loop_fast` (lines 237-242): a
page-addressed item goes through `_update` with the *default* `cache=True`
(line 238 passes no flag); an event-family item runs
`_update_event_items(cache)` over the whole fast registry; the volume item
runs `_update_volume(item, cache)`; reading `item.conf['enigma2_data_type']`
raises `KeyError` when absent. -/
def fast_item_step (env : Env) (d : Device) (allFast : List Item)
    (it : Item) (cacheFlag : Bool) (s : EngineState) :
    Except PyErr Unit × EngineState :=
  if (alistGet it.conf "enigma2_page").isSome then
    update env d it true s
  else
    match alistGet it.conf "enigma2_data_type" with
    | none => (.error .keyError, s)
    | some dt =>
      if dt == "current_eventtitle" || dt == "current_eventdescription" ||
         dt == "current_eventdescriptionextended" then
        update_event_items env d allFast cacheFlag s
      else if dt == "current_volume" then
        update_volume env d it cacheFlag s
      else (.ok (), s)

/-- Iteration of `_update_loop_fast` over the remaining fast items. -/
def update_loop_fast_aux (env : Env) (d : Device) (allFast : List Item) :
    List Item → Bool → EngineState → Except PyErr Unit × EngineState
  | [], _, s => (.ok (), { s with cache := [] })
  | it :: rest, cacheFlag, s =>
    if s.alive then
      match fast_item_step env d allFast it cacheFlag s with
      | (.error er, s1) => (.error er, s1)
      | (.ok _, s1) => update_loop_fast_aux env d allFast rest cacheFlag s1
    else (.ok (), s)

/-- `Enigma2._update_loop_fast` over the device's fast registry. -/
def update_loop_fast (env : Env) (d : Device) (fastItems : List Item)
    (cacheFlag : Bool) (s : EngineState) : Except PyErr Unit × EngineState :=
  update_loop_fast_aux env d fastItems fastItems cacheFlag s

/-- Acknowledgement handling shared by `remote_control_command` (lines
305-311), `zap` (lines 373-379) and `send_message`: check the result and
result-text elements and log; `.data` on a non-text first child raises. -/
def ackLog (xml : Xml) (resultTag textTag : String) : Except PyErr Unit :=
  match xml.getElems resultTag, xml.getElems textTag with
  | r :: _, rt :: _ =>
    if rt.firstChild.isSome && r.firstChild.isSome then
      match r.firstChild with
      | some (.text dres) =>
        if dres == "True" then
          match rt.firstChild with
          | some (.text _) => .ok ()
          | some (.elem _ _) => .error .attributeError
          | none => .ok ()
        else .ok ()
      | some (.elem _ _) => .error .attributeError
      | none => .ok ()
    else .ok ()
  | _, _ => .ok ()

/-- `Enigma2.remote_control_command` (lines 294-311): issue the command; a
transport exception is caught; `minidom.parseString` on line 305 is *outside*
the `try`, so an unparseable acknowledgement raises. -/
def remote_control_command (env : Env) (d : Device) (commandId : String)
    (s : EngineState) : Except PyErr Unit × EngineState :=
  let url := build_url d "/web/remotecontrol" ("command=" ++ commandId)
  let (res, s1) := sessionGet url s
  match res with
  | none => (.ok (), s1)
  | some content =>
    match env.parse content with
    | none => (.error .valueError, s1)
    | some xml => (ackLog xml "e2result" "e2resulttext", s1)

/-- `Enigma2.zap` (lines 356-379), with the same uncaught-parse behavior as
`remote_control_command`. -/
def zap (env : Env) (d : Device) (e2servicereference title : String)
    (s : EngineState) : Except PyErr Unit × EngineState :=
  let url := build_url d "/web/zap"
      ("sRef=" ++ e2servicereference ++ "&title=" ++ title)
  let (res, s1) := sessionGet url s
  match res with
  | none => (.ok (), s1)
  | some content =>
    match env.parse content with
    | none => (.error .valueError, s1)
    | some xml => (ackLog xml "e2state" "e2statetext", s1)

/-- `Enigma2.execute_item` (lines 273-292).  Alongside the result and the
final state we return the list of top-level calls the dispatcher itself
initiated, in order: the device command, then for standby-toggle command ids
(`105`, `106`, `116`) a forced event resolution followed by a forced fast
cycle, for volume ids (`114`, `115`) only a forced fast cycle, and for a
`sref` zap always both. -/
def execute_item (env : Env) (d : Device) (fastItems : List Item) (it : Item)
    (caller : String) (s : EngineState) :
    Except PyErr Unit × EngineState × List Call :=
  if caller == "Enigma2" then (.ok (), s, [])
  else
    match alistGet it.conf "enigma2_remote_command_id" with
    | some cid =>
      match remote_control_command env d cid s with
      | (.error er, s1) => (.error er, s1, [.remote cid])
      | (.ok _, s1) =>
        if cid == "105" || cid == "106" || cid == "116" then
          match update_event_items env d fastItems false s1 with
          | (.error er, s2) => (.error er, s2, [.remote cid, .eventUpdate false])
          | (.ok _, s2) =>
            match update_loop_fast env d fastItems false s2 with
            | (r, s3) => (r, s3, [.remote cid, .eventUpdate false, .fastLoop false])
        else if cid == "114" || cid == "115" then
          match update_loop_fast env d fastItems false s1 with
          | (r, s2) => (r, s2, [.remote cid, .fastLoop false])
        else (.ok (), s1, [.remote cid])
    | none =>
      match alistGet it.conf "sref" with
      | some sr =>
        match zap env d sr "" s with
        | (.error er, s1) => (.error er, s1, [.zapTo sr])
        | (.ok _, s1) =>
          match update_event_items env d fastItems false s1 with
          | (.error er, s2) => (.error er, s2, [.zapTo sr, .eventUpdate false])
          | (.ok _, s2) =>
            match update_loop_fast env d fastItems false s2 with
            | (r, s3) => (r, s3, [.zapTo sr, .eventUpdate false, .fastLoop false])
      | none => (.ok (), s, [])

/-- One `e2audiotrack` entry of `get_audio_tracks` (lines 330-352): each
field is added only when present; `.data` on a missing or non-text first
child raises `AttributeError`; `int(...)` on non-numeric text raises
`ValueError`; the active flag is `data in 'True'` — Python substring
containment. -/
def audioTrackTextField (entry : Xml) (tag : String) :
    Except PyErr (Option String) :=
  match entry.getElems tag with
  | [] => .ok none
  | e :: _ =>
    match e.firstChild with
    | some (.text t) => .ok (some t)
    | _ => .error .attributeError

/-- An `int(...)`-converted audio-track field (`e2audiotrackid` /
`e2audiotrackpid`). -/
def audioTrackIntField (entry : Xml) (tag : String) :
    Except PyErr (Option Int) :=
  match entry.getElems tag with
  | [] => .ok none
  | e :: _ =>
    match e.firstChild with
    | some (.text t) =>
      if represents_int t then .ok (some (py_int_parse t))
      else .error .valueError
    | _ => .error .attributeError

/-- The `e2audiotrackactive` flag (lines 345-350): `data in 'True'` — Python
substring containment — decides the Boolean. -/
def audioTrackActiveField (entry : Xml) : Except PyErr (Option Bool) :=
  match entry.getElems "e2audiotrackactive" with
  | [] => .ok none
  | e :: _ =>
    match e.firstChild with
    | some (.text t) =>
      if pyIn t "True" then .ok (some true) else .ok (some false)
    | _ => .error .attributeError

/-- Assembly of one audio-track entry from its four fields. -/
def audioTrackFromEntry (entry : Xml) : Except PyErr AudioTrack :=
  match audioTrackTextField entry "e2audiotrackdescription" with
  | .error er => .error er
  | .ok desc =>
    match audioTrackIntField entry "e2audiotrackid" with
    | .error er => .error er
    | .ok tid =>
      match audioTrackIntField entry "e2audiotrackpid" with
      | .error er => .error er
      | .ok tpid =>
        match audioTrackActiveField entry with
        | .error er => .error er
        | .ok act =>
          .ok { description := desc, trackId := tid, pid := tpid, active := act }

/-- Fold `audioTrackFromEntry` over the track entries, propagating the first
uncaught exception. -/
def audioTracksFromEntries : List Xml → Except PyErr (List AudioTrack)
  | [] => .ok []
  | e :: rest =>
    match audioTrackFromEntry e with
    | .error er => .error er
    | .ok tr =>
      match audioTracksFromEntries rest with
      | .error er => .error er
      | .ok l => .ok (tr :: l)

/-- `Enigma2.get_audio_tracks` (lines 313-354): fetch and parse are inside
the `try` (failure returns `None`); the per-entry extraction can raise. -/
def get_audio_tracks (env : Env) (d : Device) (s : EngineState) :
    Except PyErr (Option (List AudioTrack)) × EngineState :=
  let url := build_url d "/web/getaudiotracks" ""
  let (res, s1) := sessionGet url s
  match res with
  | none => (.ok none, s1)
  | some content =>
    match env.parse content with
    | none => (.ok none, s1)
    | some xml =>
      match audioTracksFromEntries (xml.getElems "e2audiotrack") with
      | .error er => (.error er, s1)
      | .ok l => (.ok (some l), s1)

/-! Basic lemmas about the helpers. -/

theorem startsWithList_iff (a : List Char) :
    ∀ b, startsWithList a b = true ↔ ∃ r, b = a ++ r := by
  induction a with
  | nil => intro b; simp [startsWithList]
  | cons c as ih =>
    intro b
    cases b with
    | nil =>
      simp [startsWithList]
    | cons c' bs =>
      simp only [startsWithList, Bool.and_eq_true, beq_iff_eq, ih,
        List.cons_append, List.cons.injEq]
      constructor
      · rintro ⟨rfl, r, rfl⟩
        exact ⟨r, rfl, rfl⟩
      · rintro ⟨r, rfl, rfl⟩
        exact ⟨rfl, r, rfl⟩

theorem substringList_iff (a : List Char) :
    ∀ b, substringList a b = true ↔ ∃ l r, b = l ++ (a ++ r) := by
  intro b
  induction b with
  | nil =>
    cases a with
    | nil => simp [substringList]
    | cons c as =>
      simp only [substringList]
      constructor
      · intro h
        exact absurd h (by simp)
      · rintro ⟨l, r, h⟩
        exact absurd h (by simp)
  | cons c bs ih =>
    simp only [substringList, Bool.or_eq_true, startsWithList_iff, ih]
    constructor
    · rintro (⟨r, h⟩ | ⟨l, r, rfl⟩)
      · exact ⟨[], r, by simpa using h⟩
      · exact ⟨c :: l, r, rfl⟩
    · rintro ⟨l, r, h⟩
      cases l with
      | nil => exact Or.inl ⟨r, by simpa using h⟩
      | cons c' l' =>
        simp only [List.cons_append, List.cons.injEq] at h
        exact Or.inr ⟨l', r, h.2⟩

/-- Python string containment is exactly contiguous-substring occurrence. -/
theorem pyIn_iff (a b : String) :
    pyIn a b = true ↔ ∃ l r, b.data = l ++ (a.data ++ r) :=
  substringList_iff a.data b.data

theorem alistGet_dictSet (l : List (String × String)) (k v k' : String) :
    alistGet (dictSet l k v) k'
      = if k == k' then some v else alistGet l k' := by
  induction l with
  | nil => by_cases h : k = k' <;> simp [dictSet, alistGet, h]
  | cons p rest ih =>
    obtain ⟨k0, v0⟩ := p
    by_cases h0 : k0 = k
    · subst h0
      by_cases h1 : k0 = k' <;> simp [dictSet, alistGet, h1]
    · by_cases h1 : k0 = k'
      · subst h1
        simp [dictSet, alistGet, h0, Ne.symm h0]
      · simp [dictSet, alistGet, h0, h1, ih]

theorem alistGet_dictSet_self (l : List (String × String)) (k v : String) :
    alistGet (dictSet l k v) k = some v := by
  simp [alistGet_dictSet]

theorem alistGet_dictSet_isSome (l : List (String × String)) (k v k' : String)
    (h : (alistGet l k').isSome = true) :
    (alistGet (dictSet l k v) k').isSome = true := by
  rw [alistGet_dictSet]
  by_cases hk : k = k' <;> simp [hk, h]

/-! Field-preservation lemmas: none of the engine operations changes the
network oracle or the running flag, and slot writes leave the cache alone. -/

theorem writeSlot_cache (s : EngineState) (it : Item) (v : PyVal) :
    (writeSlot s it v).cache = s.cache := rfl

theorem writeSlot_keyFetchLog (s : EngineState) (it : Item) (v : PyVal) :
    (writeSlot s it v).keyFetchLog = s.keyFetchLog := rfl

theorem writeSlot_net (s : EngineState) (it : Item) (v : PyVal) :
    (writeSlot s it v).net = s.net := rfl

theorem writeSlot_alive (s : EngineState) (it : Item) (v : PyVal) :
    (writeSlot s it v).alive = s.alive := rfl

theorem writeSlot_fetchLog (s : EngineState) (it : Item) (v : PyVal) :
    (writeSlot s it v).fetchLog = s.fetchLog := rfl

theorem sessionGet_alive (u : String) (s : EngineState) :
    ((sessionGet u s).2).alive = s.alive := rfl

theorem sessionGet_net (u : String) (s : EngineState) :
    ((sessionGet u s).2).net = s.net := rfl

theorem cached_get_request_alive (k u : String) (f : Bool) (s : EngineState) :
    (cached_get_request k u f s).alive = s.alive := by
  unfold cached_get_request
  split
  · cases hn : s.net s.fetchCount <;> simp [sessionGet, hn]
  · rfl

theorem cached_get_request_net (k u : String) (f : Bool) (s : EngineState) :
    (cached_get_request k u f s).net = s.net := by
  unfold cached_get_request
  split
  · cases hn : s.net s.fetchCount <;> simp [sessionGet, hn]
  · rfl

theorem update_alive (env : Env) (d : Device) (it : Item) (f : Bool)
    (s : EngineState) : ((update env d it f s).2).alive = s.alive := by
  unfold update
  dsimp only
  repeat' split
  all_goals simp [writeSlot_alive, cached_get_request_alive]

theorem update_net (env : Env) (d : Device) (it : Item) (f : Bool)
    (s : EngineState) : ((update env d it f s).2).net = s.net := by
  unfold update
  dsimp only
  repeat' split
  all_goals simp [writeSlot_net, cached_get_request_net]

theorem update_volume_alive (env : Env) (d : Device) (it : Item) (f : Bool)
    (s : EngineState) : ((update_volume env d it f s).2).alive = s.alive := by
  unfold update_volume
  dsimp only
  repeat' split
  all_goals simp [writeSlot_alive, sessionGet]

theorem update_volume_net (env : Env) (d : Device) (it : Item) (f : Bool)
    (s : EngineState) : ((update_volume env d it f s).2).net = s.net := by
  unfold update_volume
  dsimp only
  repeat' split
  all_goals simp [writeSlot_net, sessionGet]

theorem epgservice_alive (env : Env) (d : Device) (r : String)
    (s : EngineState) :
    ((get_current_epgservice_for_service_reference env d r s).2).alive
      = s.alive := by
  unfold get_current_epgservice_for_service_reference
  dsimp only
  repeat' split
  all_goals simp [sessionGet]

theorem epgservice_net (env : Env) (d : Device) (r : String)
    (s : EngineState) :
    ((get_current_epgservice_for_service_reference env d r s).2).net
      = s.net := by
  unfold get_current_epgservice_for_service_reference
  dsimp only
  repeat' split
  all_goals simp [sessionGet]

theorem epgSubscriptWrite_alive (epg : Option (List (String × String)))
    (key : String) (it : Item) (s : EngineState) :
    ((epgSubscriptWrite epg key it s).2).alive = s.alive := by
  unfold epgSubscriptWrite
  repeat' split
  all_goals simp [writeSlot_alive]

theorem epgSubscriptWrite_net (epg : Option (List (String × String)))
    (key : String) (it : Item) (s : EngineState) :
    ((epgSubscriptWrite epg key it s).2).net = s.net := by
  unfold epgSubscriptWrite
  repeat' split
  all_goals simp [writeSlot_net]

theorem epgStep_alive (env : Env) (d : Device) (r : String)
    (s : EngineState) : ((epgStep env d r s).2).alive = s.alive := by
  unfold epgStep
  split
  · exact epgservice_alive env d r s
  · rfl

theorem epgStep_net (env : Env) (d : Device) (r : String)
    (s : EngineState) : ((epgStep env d r s).2).net = s.net := by
  unfold epgStep
  split
  · exact epgservice_net env d r s
  · rfl

theorem servicenameWrite_alive (xml : Xml) (dt : String) (it : Item)
    (s s3 : EngineState) (h : servicenameWrite xml dt it s = .ok s3) :
    s3.alive = s.alive := by
  unfold servicenameWrite at h
  split at h
  · split at h
    · exact absurd h (by simp)
    · cases h
      rfl
    · cases h
      rfl
  · cases h
    rfl

theorem servicenameWrite_net (xml : Xml) (dt : String) (it : Item)
    (s s3 : EngineState) (h : servicenameWrite xml dt it s = .ok s3) :
    s3.net = s.net := by
  unfold servicenameWrite at h
  split at h
  · split at h
    · exact absurd h (by simp)
    · cases h
      rfl
    · cases h
      rfl
  · cases h
    rfl

theorem update_current_event_alive (env : Env) (d : Device) (it : Item)
    (f : Bool) (s : EngineState) :
    ((update_current_event env d it f s).2).alive = s.alive := by
  unfold update_current_event
  cases hdt : alistGet it.conf "enigma2_data_type" with
  | none => rfl
  | some dt =>
    dsimp only
    have ha1 := cached_get_request_alive "subservices"
      (build_url d "/web/subservices" "") f s
    generalize cached_get_request "subservices"
      (build_url d "/web/subservices" "") f s = s1 at ha1 ⊢
    cases hc : alistGet s1.cache "subservices" with
    | none => simpa using ha1
    | some content =>
      dsimp only
      cases hp : env.parse content with
      | none => simpa using ha1
      | some xml =>
        dsimp only
        cases hg : xml.getElems "e2servicereference" with
        | nil => simpa using ha1
        | cons e rest =>
          dsimp only
          cases hfc : e.firstChild with
          | none => simpa using ha1
          | some c =>
            cases c with
            | elem t cs => simpa using ha1
            | text sref =>
              dsimp only
              rcases hes : epgStep env d sref s1 with ⟨r, s2⟩
              have ha2 : s2.alive = s1.alive := by
                rw [← epgStep_alive env d sref s1, hes]
              cases r with
              | error er => exact ha2.trans ha1
              | ok epg =>
                dsimp only
                cases hsn : servicenameWrite xml dt it s2 with
                | error er => exact ha2.trans ha1
                | ok s3 =>
                  have ha3 : s3.alive = s2.alive :=
                    servicenameWrite_alive xml dt it s2 s3 hsn
                  have ha3' : s3.alive = s.alive :=
                    (ha3.trans ha2).trans ha1
                  by_cases h1 : dt == "current_eventtitle"
                  · simp [h1, epgSubscriptWrite_alive, ha3']
                  · by_cases h2 : dt == "current_eventdescription"
                    · simp [h1, h2, epgSubscriptWrite_alive, ha3']
                    · by_cases h3 : dt == "current_eventdescriptionextended"
                      · simp [h1, h2, h3, epgSubscriptWrite_alive, ha3']
                      · simp [h1, h2, h3, ha3']

theorem update_current_event_net (env : Env) (d : Device) (it : Item)
    (f : Bool) (s : EngineState) :
    ((update_current_event env d it f s).2).net = s.net := by
  unfold update_current_event
  cases hdt : alistGet it.conf "enigma2_data_type" with
  | none => rfl
  | some dt =>
    dsimp only
    have ha1 := cached_get_request_net "subservices"
      (build_url d "/web/subservices" "") f s
    generalize cached_get_request "subservices"
      (build_url d "/web/subservices" "") f s = s1 at ha1 ⊢
    cases hc : alistGet s1.cache "subservices" with
    | none => simpa using ha1
    | some content =>
      dsimp only
      cases hp : env.parse content with
      | none => simpa using ha1
      | some xml =>
        dsimp only
        cases hg : xml.getElems "e2servicereference" with
        | nil => simpa using ha1
        | cons e rest =>
          dsimp only
          cases hfc : e.firstChild with
          | none => simpa using ha1
          | some c =>
            cases c with
            | elem t cs => simpa using ha1
            | text sref =>
              dsimp only
              rcases hes : epgStep env d sref s1 with ⟨r, s2⟩
              have ha2 : s2.net = s1.net := by
                rw [← epgStep_net env d sref s1, hes]
              cases r with
              | error er => exact ha2.trans ha1
              | ok epg =>
                dsimp only
                cases hsn : servicenameWrite xml dt it s2 with
                | error er => exact ha2.trans ha1
                | ok s3 =>
                  have ha3 : s3.net = s2.net :=
                    servicenameWrite_net xml dt it s2 s3 hsn
                  have ha3' : s3.net = s.net :=
                    (ha3.trans ha2).trans ha1
                  by_cases h1 : dt == "current_eventtitle"
                  · simp [h1, epgSubscriptWrite_net, ha3']
                  · by_cases h2 : dt == "current_eventdescription"
                    · simp [h1, h2, epgSubscriptWrite_net, ha3']
                    · by_cases h3 : dt == "current_eventdescriptionextended"
                      · simp [h1, h2, h3, epgSubscriptWrite_net, ha3']
                      · simp [h1, h2, h3, ha3']

theorem update_event_items_alive (env : Env) (d : Device)
    (fastItems : List Item) (f : Bool) (s : EngineState) :
    ((update_event_items env d fastItems f s).2).alive = s.alive := by
  induction fastItems generalizing s with
  | nil => rfl
  | cons it rest ih =>
    unfold update_event_items
    cases hdt : alistGet it.conf "enigma2_data_type" with
    | none => rfl
    | some dt =>
      simp only
      split
      · rcases huce : update_current_event env d it f s with ⟨r, s1⟩
        have hs1 : s1.alive = s.alive := by
          rw [← update_current_event_alive env d it f s, huce]
        cases r with
        | error er => exact hs1
        | ok _ =>
          dsimp only
          rw [ih s1, hs1]
      · exact ih s

theorem update_volume_cache (env : Env) (d : Device) (it : Item) (f : Bool)
    (s : EngineState) : ((update_volume env d it f s).2).cache = s.cache := by
  unfold update_volume
  dsimp only
  repeat' split
  all_goals simp [writeSlot, sessionGet]

theorem update_volume_keyFetchLog (env : Env) (d : Device) (it : Item)
    (f : Bool) (s : EngineState) :
    ((update_volume env d it f s).2).keyFetchLog = s.keyFetchLog := by
  unfold update_volume
  dsimp only
  repeat' split
  all_goals simp [writeSlot, sessionGet]

theorem epgservice_cache (env : Env) (d : Device) (r : String)
    (s : EngineState) :
    ((get_current_epgservice_for_service_reference env d r s).2).cache
      = s.cache := by
  unfold get_current_epgservice_for_service_reference
  dsimp only
  repeat' split
  all_goals simp [sessionGet]

theorem epgservice_keyFetchLog (env : Env) (d : Device) (r : String)
    (s : EngineState) :
    ((get_current_epgservice_for_service_reference env d r s).2).keyFetchLog
      = s.keyFetchLog := by
  unfold get_current_epgservice_for_service_reference
  dsimp only
  repeat' split
  all_goals simp [sessionGet]

theorem epgservice_fetchLog (env : Env) (d : Device) (r : String)
    (s : EngineState) :
    ((get_current_epgservice_for_service_reference env d r s).2).fetchLog
      = s.fetchLog ++ [build_url d "/web/epgservice" ("sRef=" ++ r)] := by
  unfold get_current_epgservice_for_service_reference
  dsimp only
  repeat' split
  all_goals simp [sessionGet]

theorem epgSubscriptWrite_fetchLog (epg : Option (List (String × String)))
    (key : String) (it : Item) (s : EngineState) :
    ((epgSubscriptWrite epg key it s).2).fetchLog = s.fetchLog := by
  unfold epgSubscriptWrite
  repeat' split
  all_goals simp [writeSlot]

theorem servicenameWrite_fetchLog (xml : Xml) (dt : String) (it : Item)
    (s s3 : EngineState) (h : servicenameWrite xml dt it s = .ok s3) :
    s3.fetchLog = s.fetchLog := by
  unfold servicenameWrite at h
  split at h
  · split at h
    · exact absurd h (by simp)
    · cases h
      rfl
    · cases h
      rfl
  · cases h
    rfl

theorem epgSubscriptWrite_cache (epg : Option (List (String × String)))
    (key : String) (it : Item) (s : EngineState) :
    ((epgSubscriptWrite epg key it s).2).cache = s.cache := by
  unfold epgSubscriptWrite
  repeat' split
  all_goals simp [writeSlot]

theorem epgSubscriptWrite_keyFetchLog (epg : Option (List (String × String)))
    (key : String) (it : Item) (s : EngineState) :
    ((epgSubscriptWrite epg key it s).2).keyFetchLog = s.keyFetchLog := by
  unfold epgSubscriptWrite
  repeat' split
  all_goals simp [writeSlot]

theorem servicenameWrite_cache (xml : Xml) (dt : String) (it : Item)
    (s s3 : EngineState) (h : servicenameWrite xml dt it s = .ok s3) :
    s3.cache = s.cache := by
  unfold servicenameWrite at h
  split at h
  · split at h
    · exact absurd h (by simp)
    · cases h
      rfl
    · cases h
      rfl
  · cases h
    rfl

theorem servicenameWrite_keyFetchLog (xml : Xml) (dt : String) (it : Item)
    (s s3 : EngineState) (h : servicenameWrite xml dt it s = .ok s3) :
    s3.keyFetchLog = s.keyFetchLog := by
  unfold servicenameWrite at h
  split at h
  · split at h
    · exact absurd h (by simp)
    · cases h
      rfl
    · cases h
      rfl
  · cases h
    rfl

theorem update_event_items_net (env : Env) (d : Device)
    (fastItems : List Item) (f : Bool) (s : EngineState) :
    ((update_event_items env d fastItems f s).2).net = s.net := by
  induction fastItems generalizing s with
  | nil => rfl
  | cons it rest ih =>
    unfold update_event_items
    cases hdt : alistGet it.conf "enigma2_data_type" with
    | none => rfl
    | some dt =>
      simp only
      split
      · rcases huce : update_current_event env d it f s with ⟨r, s1⟩
        have hs1 : s1.net = s.net := by
          rw [← update_current_event_net env d it f s, huce]
        cases r with
        | error er => exact hs1
        | ok _ =>
          dsimp only
          rw [ih s1, hs1]
      · exact ih s

/-! The per-invocation fetch-deduplication invariant: with caching enabled
and all fetches succeeding, every key in the cached-fetch log is present in
the cache, and the log has no duplicates. -/

/-- Every fetch of the network oracle succeeds. -/
def NetOk (s : EngineState) : Prop := ∀ n, s.net n ≠ none

/-- Every key for which `_cached_get_request` performed a fetch is in the
cache. -/
def CoversLog (s : EngineState) : Prop :=
  ∀ k ∈ s.keyFetchLog, (alistGet s.cache k).isSome = true

/-- Combined deduplication invariant. -/
def FetchInv (s : EngineState) : Prop := CoversLog s ∧ s.keyFetchLog.Nodup

theorem netOk_of_eq {s r : EngineState} (h : r.net = s.net) (hs : NetOk s) :
    NetOk r := by
  intro n
  rw [h]
  exact hs n

theorem fetchInv_of_eq {s r : EngineState} (hc : r.cache = s.cache)
    (hk : r.keyFetchLog = s.keyFetchLog) (h : FetchInv s) : FetchInv r := by
  constructor
  · intro k hkmem
    rw [hk] at hkmem
    rw [hc]
    exact h.1 k hkmem
  · rw [hk]
    exact h.2

theorem fetchInv_writeSlot (r : EngineState) (it : Item) (v : PyVal) :
    FetchInv (writeSlot r it v) ↔ FetchInv r := by
  constructor <;> intro h <;>
    exact fetchInv_of_eq rfl rfl h

theorem cached_get_request_inv (k u : String) (s : EngineState)
    (hnet : NetOk s) (hinv : FetchInv s) :
    FetchInv (cached_get_request k u true s) := by
  unfold cached_get_request
  split
  · rename_i hcond
    have hnone : (alistGet s.cache k).isNone = true := by simpa using hcond
    cases hn : s.net s.fetchCount with
    | none => exact absurd hn (hnet s.fetchCount)
    | some content =>
      simp only [sessionGet, hn]
      have hknot : k ∉ s.keyFetchLog := by
        intro hmem
        have := hinv.1 k hmem
        rw [Option.isNone_iff_eq_none] at hnone
        rw [hnone] at this
        exact absurd this (by simp)
      constructor
      · intro k' hk'
        rcases List.mem_append.mp hk' with hmem | hmem
        · exact alistGet_dictSet_isSome s.cache k content k' (hinv.1 k' hmem)
        · have : k' = k := by simpa using hmem
          subst this
          rw [alistGet_dictSet_self]
          rfl
      · exact List.Nodup.append hinv.2 (List.nodup_singleton k)
          (List.disjoint_singleton.mpr hknot)
  · exact hinv

theorem update_inv (env : Env) (d : Device) (it : Item) (s : EngineState)
    (hnet : NetOk s) (hinv : FetchInv s) :
    FetchInv ((update env d it true s).2) := by
  unfold update
  dsimp only
  repeat' split
  all_goals
    first
      | exact hinv
      | exact cached_get_request_inv _ _ _ hnet hinv

theorem epgStep_inv (env : Env) (d : Device) (r : String) (s : EngineState)
    (h : FetchInv s) : FetchInv ((epgStep env d r s).2) := by
  unfold epgStep
  split
  · exact fetchInv_of_eq (epgservice_cache env d r s)
      (epgservice_keyFetchLog env d r s) h
  · exact h

theorem update_current_event_inv (env : Env) (d : Device) (it : Item)
    (s : EngineState) (hnet : NetOk s) (hinv : FetchInv s) :
    FetchInv ((update_current_event env d it true s).2) := by
  unfold update_current_event
  cases hdt : alistGet it.conf "enigma2_data_type" with
  | none => exact hinv
  | some dt =>
    dsimp only
    have hi1 := cached_get_request_inv "subservices"
      (build_url d "/web/subservices" "") s hnet hinv
    generalize cached_get_request "subservices"
      (build_url d "/web/subservices" "") true s = s1 at hi1 ⊢
    cases hc : alistGet s1.cache "subservices" with
    | none => simpa using hi1
    | some content =>
      dsimp only
      cases hp : env.parse content with
      | none => simpa using hi1
      | some xml =>
        dsimp only
        cases hg : xml.getElems "e2servicereference" with
        | nil => simpa using hi1
        | cons e rest =>
          dsimp only
          cases hfc : e.firstChild with
          | none => simpa using hi1
          | some c =>
            cases c with
            | elem t cs => simpa using hi1
            | text sref =>
              dsimp only
              rcases hes : epgStep env d sref s1 with ⟨r, s2⟩
              have hi2 : FetchInv s2 := by
                have := epgStep_inv env d sref s1 hi1
                rwa [hes] at this
              cases r with
              | error er => exact hi2
              | ok epg =>
                dsimp only
                cases hsn : servicenameWrite xml dt it s2 with
                | error er => exact hi2
                | ok s3 =>
                  have hi3 : FetchInv s3 :=
                    fetchInv_of_eq (servicenameWrite_cache xml dt it s2 s3 hsn)
                      (servicenameWrite_keyFetchLog xml dt it s2 s3 hsn) hi2
                  have hsub : ∀ key, FetchInv ((epgSubscriptWrite epg key it s3).2) :=
                    fun key => fetchInv_of_eq (epgSubscriptWrite_cache epg key it s3)
                      (epgSubscriptWrite_keyFetchLog epg key it s3) hi3
                  by_cases h1 : dt == "current_eventtitle"
                  · simp only [h1, if_true]
                    exact hsub _
                  · by_cases h2 : dt == "current_eventdescription"
                    · simp [h1, h2, hsub _]
                    · by_cases h3 : dt == "current_eventdescriptionextended"
                      · simp [h1, h2, h3, hsub _]
                      · simp [h1, h2, h3]
                        exact hi3

theorem update_event_items_inv (env : Env) (d : Device)
    (fastItems : List Item) (s : EngineState) (hnet : NetOk s)
    (hinv : FetchInv s) :
    FetchInv ((update_event_items env d fastItems true s).2) := by
  induction fastItems generalizing s with
  | nil => exact hinv
  | cons it rest ih =>
    unfold update_event_items
    cases hdt : alistGet it.conf "enigma2_data_type" with
    | none => exact hinv
    | some dt =>
      dsimp only
      split
      · rcases huce : update_current_event env d it true s with ⟨r, s1⟩
        have hi1 : FetchInv s1 := by
          have := update_current_event_inv env d it s hnet hinv
          rwa [huce] at this
        have hn1 : NetOk s1 := by
          have := update_current_event_net env d it true s
          rw [huce] at this
          exact netOk_of_eq this hnet
        cases r with
        | error er => exact hi1
        | ok _ =>
          dsimp only
          exact ih s1 hn1 hi1
      · exact ih s hnet hinv

theorem update_loop_nodup (env : Env) (d : Device) (items : List Item)
    (s : EngineState) (hnet : NetOk s) (hinv : FetchInv s) :
    ((update_loop env d items s).2).keyFetchLog.Nodup := by
  induction items generalizing s with
  | nil => simpa using hinv.2
  | cons it rest ih =>
    unfold update_loop
    by_cases ha : s.alive
    · simp only [ha, if_true]
      rcases hu : update env d it true s with ⟨r, s1⟩
      have hi1 : FetchInv s1 := by
        have := update_inv env d it s hnet hinv
        rwa [hu] at this
      have hn1 : NetOk s1 := by
        have := update_net env d it true s
        rw [hu] at this
        exact netOk_of_eq this hnet
      cases r with
      | error er => exact hi1.2
      | ok _ =>
        dsimp only
        exact ih s1 hn1 hi1
    · simp only [ha, if_false]
      exact hinv.2

theorem fast_item_step_inv (env : Env) (d : Device) (allFast : List Item)
    (it : Item) (s : EngineState) (hnet : NetOk s) (hinv : FetchInv s) :
    FetchInv ((fast_item_step env d allFast it true s).2) := by
  unfold fast_item_step
  split
  · exact update_inv env d it s hnet hinv
  · cases hdt : alistGet it.conf "enigma2_data_type" with
    | none => exact hinv
    | some dt =>
      dsimp only
      split
      · exact update_event_items_inv env d allFast s hnet hinv
      · split
        · exact fetchInv_of_eq (update_volume_cache env d it true s)
            (update_volume_keyFetchLog env d it true s) hinv
        · exact hinv

theorem fast_item_step_net (env : Env) (d : Device) (allFast : List Item)
    (it : Item) (f : Bool) (s : EngineState) :
    ((fast_item_step env d allFast it f s).2).net = s.net := by
  unfold fast_item_step
  split
  · exact update_net env d it true s
  · cases hdt : alistGet it.conf "enigma2_data_type" with
    | none => rfl
    | some dt =>
      dsimp only
      split
      · exact update_event_items_net env d allFast f s
      · split
        · exact update_volume_net env d it f s
        · rfl

theorem fast_item_step_alive (env : Env) (d : Device) (allFast : List Item)
    (it : Item) (f : Bool) (s : EngineState) :
    ((fast_item_step env d allFast it f s).2).alive = s.alive := by
  unfold fast_item_step
  split
  · exact update_alive env d it true s
  · cases hdt : alistGet it.conf "enigma2_data_type" with
    | none => rfl
    | some dt =>
      dsimp only
      split
      · exact update_event_items_alive env d allFast f s
      · split
        · exact update_volume_alive env d it f s
        · rfl

theorem update_loop_fast_aux_nodup (env : Env) (d : Device)
    (allFast : List Item) (remaining : List Item) (s : EngineState)
    (hnet : NetOk s) (hinv : FetchInv s) :
    ((update_loop_fast_aux env d allFast remaining true s).2).keyFetchLog.Nodup := by
  induction remaining generalizing s with
  | nil => simpa using hinv.2
  | cons it rest ih =>
    unfold update_loop_fast_aux
    by_cases ha : s.alive
    · simp only [ha, if_true]
      rcases hu : fast_item_step env d allFast it true s with ⟨r, s1⟩
      have hi1 : FetchInv s1 := by
        have := fast_item_step_inv env d allFast it s hnet hinv
        rwa [hu] at this
      have hn1 : NetOk s1 := by
        have := fast_item_step_net env d allFast it true s
        rw [hu] at this
        exact netOk_of_eq this hnet
      cases r with
      | error er => exact hi1.2
      | ok _ =>
        dsimp only
        exact ih s1 hn1 hi1
    · simp only [ha, if_false]
      exact hinv.2

theorem update_loop_fast_nodup (env : Env) (d : Device)
    (fastItems : List Item) (s : EngineState) (hnet : NetOk s)
    (hinv : FetchInv s) :
    ((update_loop_fast env d fastItems true s).2).keyFetchLog.Nodup :=
  update_loop_fast_aux_nodup env d fastItems fastItems s hnet hinv

/-! Cache-clearing behavior of the two cycle loops. -/

theorem update_loop_clears (env : Env) (d : Device) (items : List Item)
    (s : EngineState) (ha : s.alive = true)
    (hok : (update_loop env d items s).1 = .ok ()) :
    ((update_loop env d items s).2).cache = [] := by
  induction items generalizing s with
  | nil => rfl
  | cons it rest ih =>
    unfold update_loop at hok ⊢
    simp only [ha, if_true] at hok ⊢
    rcases hu : update env d it true s with ⟨r, s1⟩
    rw [hu] at hok
    cases r with
    | error er => simp at hok
    | ok _ =>
      dsimp only at hok ⊢
      have ha1 : s1.alive = true := by
        have h2 := update_alive env d it true s
        rw [hu] at h2
        exact h2.trans ha
      exact ih s1 ha1 hok

theorem update_loop_fast_aux_clears (env : Env) (d : Device)
    (allFast : List Item) (remaining : List Item) (f : Bool)
    (s : EngineState) (ha : s.alive = true)
    (hok : (update_loop_fast_aux env d allFast remaining f s).1 = .ok ()) :
    ((update_loop_fast_aux env d allFast remaining f s).2).cache = [] := by
  induction remaining generalizing s with
  | nil => rfl
  | cons it rest ih =>
    unfold update_loop_fast_aux at hok ⊢
    simp only [ha, if_true] at hok ⊢
    rcases hu : fast_item_step env d allFast it f s with ⟨r, s1⟩
    rw [hu] at hok
    cases r with
    | error er => simp at hok
    | ok _ =>
      dsimp only at hok ⊢
      have ha1 : s1.alive = true := by
        have h2 := fast_item_step_alive env d allFast it f s
        rw [hu] at h2
        exact h2.trans ha
      exact ih s1 ha1 hok

theorem update_loop_fast_clears (env : Env) (d : Device)
    (fastItems : List Item) (f : Bool) (s : EngineState)
    (ha : s.alive = true)
    (hok : (update_loop_fast env d fastItems f s).1 = .ok ()) :
    ((update_loop_fast env d fastItems f s).2).cache = [] :=
  update_loop_fast_aux_clears env d fastItems fastItems f s ha hok

/-! Claim theorems. -/

/-- C1 counterexample: with caching enabled, two bindings sharing the
endpoint-key `"about"` cause two network fetches for that key in a single
slow-cycle invocation when the first fetch fails (the failure is not cached,
so the second binding retries), refuting "at most once ... regardless". -/
theorem c1_counterexample :
    (((update_loop ⟨fun _ => none⟩
        ⟨"host", "80", false, "u", "p", "enigma2"⟩
        [⟨0, [("enigma2_data_type", "e2model"), ("enigma2_page", "about")], "str"⟩,
         ⟨1, [("enigma2_data_type", "e2model"), ("enigma2_page", "about")], "str"⟩]
        ⟨[], fun n => if n == 0 then none else some "x", 0, [], [], [], true⟩).2).keyFetchLog).count
        "about" = 2 := by
  rfl

/-- C1 (amended): in every cycle invocation (slow or fast) run with caching
enabled in which every network fetch succeeds, the cached fetch performed for
each distinct endpoint-key happens at most once — the per-invocation
cached-fetch log has no duplicate keys. -/
theorem c1_cache_dedup (env : Env) (d : Device) (items fastItems : List Item)
    (s : EngineState) (hnet : ∀ n, s.net n ≠ none)
    (hlog : s.keyFetchLog = []) :
    ((update_loop env d items s).2).keyFetchLog.Nodup ∧
    ((update_loop_fast env d fastItems true s).2).keyFetchLog.Nodup := by
  have hcov : CoversLog s := by
    intro k hk
    rw [hlog] at hk
    cases hk
  have hinv : FetchInv s := ⟨hcov, by rw [hlog]; exact List.nodup_nil⟩
  exact ⟨update_loop_nodup env d items s hnet hinv,
         update_loop_fast_nodup env d fastItems s hnet hinv⟩

/-- C1 witness: the deduplication theorem applied to a concrete two-binding
registry with an all-successful network. -/
theorem c1_cache_dedup_witness :
    ((update_loop ⟨fun _ => none⟩
        ⟨"host", "80", false, "u", "p", "enigma2"⟩
        [⟨0, [("enigma2_data_type", "e2model"), ("enigma2_page", "about")], "str"⟩,
         ⟨1, [("enigma2_data_type", "e2model"), ("enigma2_page", "about")], "str"⟩]
        ⟨[], fun _ => some "x", 0, [], [], [], true⟩).2).keyFetchLog.Nodup ∧
    ((update_loop_fast ⟨fun _ => none⟩
        ⟨"host", "80", false, "u", "p", "enigma2"⟩
        [⟨0, [("enigma2_data_type", "e2model"), ("enigma2_page", "about")], "str"⟩,
         ⟨1, [("enigma2_data_type", "e2model"), ("enigma2_page", "about")], "str"⟩]
        true ⟨[], fun _ => some "x", 0, [], [], [], true⟩).2).keyFetchLog.Nodup :=
  c1_cache_dedup ⟨fun _ => none⟩
    ⟨"host", "80", false, "u", "p", "enigma2"⟩
    [⟨0, [("enigma2_data_type", "e2model"), ("enigma2_page", "about")], "str"⟩,
     ⟨1, [("enigma2_data_type", "e2model"), ("enigma2_page", "about")], "str"⟩]
    [⟨0, [("enigma2_data_type", "e2model"), ("enigma2_page", "about")], "str"⟩,
     ⟨1, [("enigma2_data_type", "e2model"), ("enigma2_page", "about")], "str"⟩]
    ⟨[], fun _ => some "x", 0, [], [], [], true⟩
    (fun _ h => Option.noConfusion h) rfl

/-- C2 counterexample: a slow-cycle invocation entered with the engine
stopped (`alive = false`) and a non-empty registry returns before the
cache-clearing line, leaving a previously populated Response Cache in place,
refuting "cleared unconditionally ... including invocations that end early
because the engine was stopped". -/
theorem c2_counterexample :
    ((update_loop ⟨fun _ => none⟩
        ⟨"host", "80", false, "u", "p", "enigma2"⟩
        [⟨0, [("enigma2_data_type", "e2model"), ("enigma2_page", "about")], "str"⟩]
        ⟨[("subservices", "stale")], fun _ => some "x", 0, [], [], [], false⟩).2).cache
      = [("subservices", "stale")] ∧
    ((update_loop ⟨fun _ => none⟩
        ⟨"host", "80", false, "u", "p", "enigma2"⟩
        [⟨0, [("enigma2_data_type", "e2model"), ("enigma2_page", "about")], "str"⟩]
        ⟨[("subservices", "stale")], fun _ => some "x", 0, [], [], [], false⟩).2).cache
      ≠ [] := by
  exact ⟨rfl, by decide⟩

/-- C2 (amended): the Response Cache is cleared at the end of every cycle
invocation (slow and fast) that completes its iteration normally; an
invocation that returns early because the engine was stopped (or dies on an
uncaught exception) leaves the cache untouched, so the cache is empty at the
start of the next invocation only when the preceding one ran to
completion. -/
theorem c2_cache_cleared (env : Env) (d : Device) (items fastItems : List Item)
    (f : Bool) (s : EngineState) (ha : s.alive = true) :
    ((update_loop env d items s).1 = .ok () →
      ((update_loop env d items s).2).cache = []) ∧
    ((update_loop_fast env d fastItems f s).1 = .ok () →
      ((update_loop_fast env d fastItems f s).2).cache = []) :=
  ⟨update_loop_clears env d items s ha,
   update_loop_fast_clears env d fastItems f s ha⟩

/-- C2 witness: the clearing theorem applied to a concrete running engine;
both cycle invocations complete and leave an empty cache. -/
theorem c2_cache_cleared_witness :
    ((update_loop ⟨fun _ => none⟩
        ⟨"host", "80", false, "u", "p", "enigma2"⟩
        [⟨0, [("enigma2_data_type", "e2model"), ("enigma2_page", "about")], "str"⟩]
        ⟨[("subservices", "stale")], fun _ => some "x", 0, [], [], [], true⟩).1 = .ok () →
      ((update_loop ⟨fun _ => none⟩
        ⟨"host", "80", false, "u", "p", "enigma2"⟩
        [⟨0, [("enigma2_data_type", "e2model"), ("enigma2_page", "about")], "str"⟩]
        ⟨[("subservices", "stale")], fun _ => some "x", 0, [], [], [], true⟩).2).cache = []) ∧
    ((update_loop_fast ⟨fun _ => none⟩
        ⟨"host", "80", false, "u", "p", "enigma2"⟩
        [⟨0, [("enigma2_data_type", "e2model"), ("enigma2_page", "about")], "str"⟩]
        true ⟨[("subservices", "stale")], fun _ => some "x", 0, [], [], [], true⟩).1 = .ok () →
      ((update_loop_fast ⟨fun _ => none⟩
        ⟨"host", "80", false, "u", "p", "enigma2"⟩
        [⟨0, [("enigma2_data_type", "e2model"), ("enigma2_page", "about")], "str"⟩]
        true ⟨[("subservices", "stale")], fun _ => some "x", 0, [], [], [], true⟩).2).cache = []) :=
  c2_cache_cleared ⟨fun _ => none⟩
    ⟨"host", "80", false, "u", "p", "enigma2"⟩
    [⟨0, [("enigma2_data_type", "e2model"), ("enigma2_page", "about")], "str"⟩]
    [⟨0, [("enigma2_data_type", "e2model"), ("enigma2_page", "about")], "str"⟩]
    true
    ⟨[("subservices", "stale")], fun _ => some "x", 0, [], [], [], true⟩ rfl

/-- C3: evaluation of the code at the failing input.  A fast cycle whose
registry holds a current-event binding followed by a volume binding, run
against a well-formed subservices response that lacks the
`e2servicereference` element, terminates with an uncaught
`UnboundLocalError` (`NameError`): the volume binding is never processed (a
single URL was fetched, no slot was written) and the cycle dies instead of
logging and continuing. -/
theorem c3_failure_terminates_cycle :
    (update_loop_fast
        ⟨fun _ => some (.elem "#document" [.elem "e2currentserviceinformation" []])⟩
        ⟨"host", "80", false, "u", "p", "enigma2"⟩
        [⟨0, [("enigma2_data_type", "current_eventtitle")], "str"⟩,
         ⟨1, [("enigma2_data_type", "current_volume")], "num"⟩]
        true ⟨[], fun _ => some "<xml>", 0, [], [], [], true⟩).1
      = .error .nameError ∧
    ((update_loop_fast
        ⟨fun _ => some (.elem "#document" [.elem "e2currentserviceinformation" []])⟩
        ⟨"host", "80", false, "u", "p", "enigma2"⟩
        [⟨0, [("enigma2_data_type", "current_eventtitle")], "str"⟩,
         ⟨1, [("enigma2_data_type", "current_volume")], "num"⟩]
        true ⟨[], fun _ => some "<xml>", 0, [], [], [], true⟩).2).fetchLog
      = ["http://host:80/web/subservices?"] ∧
    ((update_loop_fast
        ⟨fun _ => some (.elem "#document" [.elem "e2currentserviceinformation" []])⟩
        ⟨"host", "80", false, "u", "p", "enigma2"⟩
        [⟨0, [("enigma2_data_type", "current_eventtitle")], "str"⟩,
         ⟨1, [("enigma2_data_type", "current_volume")], "num"⟩]
        true ⟨[], fun _ => some "<xml>", 0, [], [], [], true⟩).2).slots
      = [] :=
  ⟨rfl, rfl, rfl⟩

/-- C4: a resolution invoked with the cache-bypass flag (`cache=False`)
always performs a fresh network fetch — the URL is requested and the key
logged — even when a value for the key is already cached. -/
theorem c4_bypass_always_fetches (k u v : String) (s : EngineState)
    (hcached : alistGet s.cache k = some v) :
    (cached_get_request k u false s).fetchLog = s.fetchLog ++ [u] ∧
    (cached_get_request k u false s).keyFetchLog = s.keyFetchLog ++ [k] := by
  unfold cached_get_request
  cases hn : s.net s.fetchCount <;> simp [sessionGet, hn]

/-- C4 witness: the bypass theorem applied where `"about"` is already
cached. -/
theorem c4_bypass_always_fetches_witness :
    alistGet [("about", "old")] "about" = some "old" ∧
    ((cached_get_request "about" "u1" false
        ⟨[("about", "old")], fun _ => some "new", 0, [], [], [], true⟩).fetchLog
        = [] ++ ["u1"] ∧
     (cached_get_request "about" "u1" false
        ⟨[("about", "old")], fun _ => some "new", 0, [], [], [], true⟩).keyFetchLog
        = [] ++ ["about"]) :=
  ⟨rfl, c4_bypass_always_fetches "about" "u1" "old"
    ⟨[("about", "old")], fun _ => some "new", 0, [], [], [], true⟩ rfl⟩

/-- C5 counterexample: in a cache-bypass pass whose fetch fails, a stale
entry for the key is retained in the Response Cache and the caller resolves
the binding from it — the run succeeds and writes the stale value — refuting
"no new or stale entry is stored or retained for use, and the error is
propagated to the caller so that the binding ... fails". -/
theorem c5_counterexample :
    (update ⟨fun _ => some (.elem "#document"
          [.elem "e2abouts" [.elem "e2model" [.text "StaleVal"]]])⟩
        ⟨"host", "80", false, "u", "p", "enigma2"⟩
        ⟨0, [("enigma2_data_type", "e2model"), ("enigma2_page", "about")], "str"⟩
        false ⟨[("about", "stale")], fun _ => none, 0, [], [], [], true⟩).1
      = .ok () ∧
    slotGet ((update ⟨fun _ => some (.elem "#document"
          [.elem "e2abouts" [.elem "e2model" [.text "StaleVal"]]])⟩
        ⟨"host", "80", false, "u", "p", "enigma2"⟩
        ⟨0, [("enigma2_data_type", "e2model"), ("enigma2_page", "about")], "str"⟩
        false ⟨[("about", "stale")], fun _ => none, 0, [], [], [], true⟩).2).slots 0
      = some (.vStr "StaleVal") ∧
    alistGet ((update ⟨fun _ => some (.elem "#document"
          [.elem "e2abouts" [.elem "e2model" [.text "StaleVal"]]])⟩
        ⟨"host", "80", false, "u", "p", "enigma2"⟩
        ⟨0, [("enigma2_data_type", "e2model"), ("enigma2_page", "about")], "str"⟩
        false ⟨[("about", "stale")], fun _ => none, 0, [], [], [], true⟩).2).cache "about"
      = some "stale" :=
  ⟨rfl, rfl, rfl⟩

/-- C5 (amended): when the fetch performed by the cached-request operation
fails, no new cache entry is stored for the key (a pre-existing entry is
retained as-is) and no exception is propagated; the caller observes the
failure only as a missing cache entry, so when no entry for the key exists
the binding silently fails for this pass — the resolution returns normally
and the value slots are unchanged. -/
theorem c5_fetch_failure (k u : String) (f : Bool) (s : EngineState)
    (hfail : s.net s.fetchCount = none) :
    (((alistGet s.cache k).isNone = true ∨ f = false) →
      (cached_get_request k u f s).cache = s.cache) ∧
    (∀ env d it dt page sfx,
      alistGet it.conf "enigma2_data_type" = some dt →
      alistGet it.conf "enigma2_page" = some page →
      url_suffix_map page = some sfx →
      alistGet s.cache page = none →
      (update env d it f s).1 = .ok () ∧
      ((update env d it f s).2).slots = s.slots) := by
  constructor
  · intro hcond
    unfold cached_get_request
    have hc : ((alistGet s.cache k).isNone || !f) = true := by
      rcases hcond with h | h
      · simp [h]
      · simp [h]
    rw [if_pos hc]
    simp [sessionGet, hfail]
  · intro env d it dt page sfx hdt hpage hsfx hmiss
    have hcgr : cached_get_request page (build_url d sfx "") f s
        = { s with fetchCount := s.fetchCount + 1,
                   fetchLog := s.fetchLog ++ [build_url d sfx ""],
                   keyFetchLog := s.keyFetchLog ++ [page] } := by
      unfold cached_get_request
      rw [hmiss]
      simp [sessionGet, hfail]
    unfold update
    rw [hdt]
    dsimp only
    rw [hpage]
    dsimp only
    rw [hsfx]
    dsimp only
    rw [hcgr]
    simp [hmiss]

/-- C5 witness: the failure theorem applied at a concrete state with an
uncached page and a failing network. -/
theorem c5_fetch_failure_witness :
    (((alistGet ([] : List (String × String)) "about").isNone = true ∨
        (true : Bool) = false) →
      (cached_get_request "about" "u1" true
        ⟨[], fun _ => none, 0, [], [], [], true⟩).cache = []) ∧
    (∀ env d it dt page sfx,
      alistGet it.conf "enigma2_data_type" = some dt →
      alistGet it.conf "enigma2_page" = some page →
      url_suffix_map page = some sfx →
      alistGet ([] : List (String × String)) page = none →
      (update env d it true ⟨[], fun _ => none, 0, [], [], [], true⟩).1 = .ok () ∧
      ((update env d it true ⟨[], fun _ => none, 0, [], [], [], true⟩).2).slots = []) :=
  c5_fetch_failure "about" "u1" true
    ⟨[], fun _ => none, 0, [], [], [], true⟩ rfl

/-- C6: during current-event resolution, a resolved service reference equal
to `"N/A"` or containing the reserved no-service pattern
`"1:0:0:0:0:0:0:0:0:0"` yields the default event record — each of the three
event fields resolves to `"-"` — and no secondary EPG request is issued (the
fetch log is unchanged); any other reference issues exactly one secondary EPG
request (the fetch log grows by exactly the one EPG URL). -/
theorem c6_event_sentinel (env : Env) (d : Device) (it : Item)
    (s : EngineState) (dt content : String) (xml e : Xml) (rest : List Xml)
    (sref : String)
    (hdt : alistGet it.conf "enigma2_data_type" = some dt)
    (hcache : alistGet s.cache "subservices" = some content)
    (hparse : env.parse content = some xml)
    (hels : xml.getElems "e2servicereference" = e :: rest)
    (hfc : e.firstChild = some (.text sref)) :
    ((sref == "N/A" || pyIn "1:0:0:0:0:0:0:0:0:0" sref) = true →
      ((update_current_event env d it true s).2).fetchLog = s.fetchLog ∧
      ((dt = "current_eventtitle" ∨ dt = "current_eventdescription" ∨
          dt = "current_eventdescriptionextended") →
        (update_current_event env d it true s).1 = .ok () ∧
        ((update_current_event env d it true s).2).slots
          = slotSet s.slots it.id (.vStr "-"))) ∧
    ((sref == "N/A" || pyIn "1:0:0:0:0:0:0:0:0:0" sref) = false →
      ((update_current_event env d it true s).2).fetchLog
        = s.fetchLog ++ [build_url d "/web/epgservice" ("sRef=" ++ sref)]) := by
  have hcgr : cached_get_request "subservices"
      (build_url d "/web/subservices" "") true s = s := by
    unfold cached_get_request
    rw [if_neg (by simp [hcache])]
  unfold update_current_event
  rw [hdt]
  dsimp only
  rw [hcgr, hcache]
  dsimp only
  rw [hparse]
  dsimp only
  rw [hels]
  dsimp only
  rw [hfc]
  dsimp only
  constructor
  · intro hsent
    have hes : epgStep env d sref s
        = (.ok (some [("e2eventtitle", "-"), ("e2eventdescription", "-"),
            ("e2eventdescriptionextended", "-")]), s) := by
      unfold epgStep
      rw [if_neg (by rw [← Bool.not_or, hsent]; simp)]
    rw [hes]
    dsimp only
    constructor
    · cases hsn : servicenameWrite xml dt it s with
      | error er => rfl
      | ok s3 =>
        have hf3 : s3.fetchLog = s.fetchLog :=
          servicenameWrite_fetchLog xml dt it s s3 hsn
        dsimp only
        by_cases h1 : dt == "current_eventtitle"
        · simp [h1, epgSubscriptWrite_fetchLog, hf3]
        · by_cases h2 : dt == "current_eventdescription"
          · simp [h1, h2, epgSubscriptWrite_fetchLog, hf3]
          · by_cases h3 : dt == "current_eventdescriptionextended"
            · simp [h1, h2, h3, epgSubscriptWrite_fetchLog, hf3]
            · simp [h1, h2, h3, hf3]
    · rintro (rfl | rfl | rfl) <;> exact ⟨rfl, rfl⟩
  · intro hnon
    have hcnd : (!(sref == "N/A") && !(pyIn "1:0:0:0:0:0:0:0:0:0" sref))
        = true := by
      rw [← Bool.not_or, hnon]
      simp
    have hes : epgStep env d sref s
        = get_current_epgservice_for_service_reference env d sref s := by
      unfold epgStep
      rw [if_pos hcnd]
    rw [hes]
    rcases hepg : get_current_epgservice_for_service_reference env d sref s
      with ⟨r2, s2⟩
    have hf2 : s2.fetchLog
        = s.fetchLog ++ [build_url d "/web/epgservice" ("sRef=" ++ sref)] := by
      have h0 := epgservice_fetchLog env d sref s
      rw [hepg] at h0
      exact h0
    cases r2 with
    | error er => exact hf2
    | ok epg =>
      dsimp only
      cases hsn : servicenameWrite xml dt it s2 with
      | error er => exact hf2
      | ok s3 =>
        have hf3 : s3.fetchLog = s2.fetchLog :=
          servicenameWrite_fetchLog xml dt it s2 s3 hsn
        dsimp only
        by_cases h1 : dt == "current_eventtitle"
        · simp [h1, epgSubscriptWrite_fetchLog, hf3, hf2]
        · by_cases h2 : dt == "current_eventdescription"
          · simp [h1, h2, epgSubscriptWrite_fetchLog, hf3, hf2]
          · by_cases h3 : dt == "current_eventdescriptionextended"
            · simp [h1, h2, h3, epgSubscriptWrite_fetchLog, hf3, hf2]
            · simp [h1, h2, h3, hf3, hf2]

/-- C6 witness: the sentinel branch applied to a concrete `"N/A"` reference
(no request leaves the fetch log unchanged, the event title resolves to
`"-"`), and the secondary-request branch applied to a concrete ordinary
reference (exactly the EPG URL is fetched). -/
theorem c6_event_sentinel_witness :
    ((update_current_event
        ⟨fun _ => some (.elem "#document" [.elem "e2currentserviceinformation"
          [.elem "e2servicereference" [.text "N/A"]]])⟩
        ⟨"host", "80", false, "u", "p", "enigma2"⟩
        ⟨0, [("enigma2_data_type", "current_eventtitle")], "str"⟩
        true ⟨[("subservices", "body")], fun _ => some "x", 0, [], [], [], true⟩).2).fetchLog
      = [] ∧
    (update_current_event
        ⟨fun _ => some (.elem "#document" [.elem "e2currentserviceinformation"
          [.elem "e2servicereference" [.text "N/A"]]])⟩
        ⟨"host", "80", false, "u", "p", "enigma2"⟩
        ⟨0, [("enigma2_data_type", "current_eventtitle")], "str"⟩
        true ⟨[("subservices", "body")], fun _ => some "x", 0, [], [], [], true⟩).1
      = .ok () ∧
    ((update_current_event
        ⟨fun _ => some (.elem "#document" [.elem "e2currentserviceinformation"
          [.elem "e2servicereference" [.text "N/A"]]])⟩
        ⟨"host", "80", false, "u", "p", "enigma2"⟩
        ⟨0, [("enigma2_data_type", "current_eventtitle")], "str"⟩
        true ⟨[("subservices", "body")], fun _ => some "x", 0, [], [], [], true⟩).2).slots
      = [(0, PyVal.vStr "-")] ∧
    ((update_current_event
        ⟨fun _ => some (.elem "#document" [.elem "e2currentserviceinformation"
          [.elem "e2servicereference" [.text "1:2:3"]]])⟩
        ⟨"host", "80", false, "u", "p", "enigma2"⟩
        ⟨0, [("enigma2_data_type", "current_eventtitle")], "str"⟩
        true ⟨[("subservices", "body")], fun _ => some "x", 0, [], [], [], true⟩).2).fetchLog
      = [build_url ⟨"host", "80", false, "u", "p", "enigma2"⟩
          "/web/epgservice" ("sRef=" ++ "1:2:3")] := by
  have hA := c6_event_sentinel
    ⟨fun _ => some (.elem "#document" [.elem "e2currentserviceinformation"
      [.elem "e2servicereference" [.text "N/A"]]])⟩
    ⟨"host", "80", false, "u", "p", "enigma2"⟩
    ⟨0, [("enigma2_data_type", "current_eventtitle")], "str"⟩
    ⟨[("subservices", "body")], fun _ => some "x", 0, [], [], [], true⟩
    "current_eventtitle" "body"
    (.elem "#document" [.elem "e2currentserviceinformation"
      [.elem "e2servicereference" [.text "N/A"]]])
    (.elem "e2servicereference" [.text "N/A"]) [] "N/A"
    rfl rfl rfl rfl rfl
  have hB := c6_event_sentinel
    ⟨fun _ => some (.elem "#document" [.elem "e2currentserviceinformation"
      [.elem "e2servicereference" [.text "1:2:3"]]])⟩
    ⟨"host", "80", false, "u", "p", "enigma2"⟩
    ⟨0, [("enigma2_data_type", "current_eventtitle")], "str"⟩
    ⟨[("subservices", "body")], fun _ => some "x", 0, [], [], [], true⟩
    "current_eventtitle" "body"
    (.elem "#document" [.elem "e2currentserviceinformation"
      [.elem "e2servicereference" [.text "1:2:3"]]])
    (.elem "e2servicereference" [.text "1:2:3"]) [] "1:2:3"
    rfl rfl rfl rfl rfl
  exact ⟨(hA.1 (by decide)).1, ((hA.1 (by decide)).2 (Or.inl rfl)).1,
    ((hA.1 (by decide)).2 (Or.inl rfl)).2, hB.2 (by decide)⟩

/-- C7 counterexample: a `105` dispatch from an external caller, with a
healthy command acknowledgement but an epgservice response lacking the
`e2event` element, initiates the forced event resolution (which dies with
the uncaught `KeyError` of `current_epgservice['e2eventtitle']`, line 497)
and never reaches the forced fast cycle: one event resolution, zero fast
cycles — refuting "triggers exactly one forced event resolution and exactly
one forced fast cycle".  The fetch log shows the dispatch, the subservices
read and the epgservice read all happened before the death. -/
theorem c7_counterexample :
    (execute_item
        ⟨fun c =>
          if c == "ack" then some (.elem "#document" [.elem "e2remotecontrol"
            [.elem "e2result" [.text "True"], .elem "e2resulttext" [.text "ok"]]])
          else if c == "subs" then some (.elem "#document"
            [.elem "e2currentserviceinformation"
              [.elem "e2servicereference" [.text "1:2:3"]]])
          else some (.elem "#document" [.elem "e2eventlist" []])⟩
        ⟨"host", "80", false, "u", "p", "enigma2"⟩
        [⟨0, [("enigma2_data_type", "current_eventtitle")], "str"⟩]
        ⟨5, [("enigma2_remote_command_id", "105")], "bool"⟩ "user"
        ⟨[], fun n => if n == 0 then some "ack"
              else if n == 1 then some "subs" else some "epg",
          0, [], [], [], true⟩).1
      = .error .keyError ∧
    ((execute_item
        ⟨fun c =>
          if c == "ack" then some (.elem "#document" [.elem "e2remotecontrol"
            [.elem "e2result" [.text "True"], .elem "e2resulttext" [.text "ok"]]])
          else if c == "subs" then some (.elem "#document"
            [.elem "e2currentserviceinformation"
              [.elem "e2servicereference" [.text "1:2:3"]]])
          else some (.elem "#document" [.elem "e2eventlist" []])⟩
        ⟨"host", "80", false, "u", "p", "enigma2"⟩
        [⟨0, [("enigma2_data_type", "current_eventtitle")], "str"⟩]
        ⟨5, [("enigma2_remote_command_id", "105")], "bool"⟩ "user"
        ⟨[], fun n => if n == 0 then some "ack"
              else if n == 1 then some "subs" else some "epg",
          0, [], [], [], true⟩).2.2).count (.eventUpdate false)
      = 1 ∧
    ((execute_item
        ⟨fun c =>
          if c == "ack" then some (.elem "#document" [.elem "e2remotecontrol"
            [.elem "e2result" [.text "True"], .elem "e2resulttext" [.text "ok"]]])
          else if c == "subs" then some (.elem "#document"
            [.elem "e2currentserviceinformation"
              [.elem "e2servicereference" [.text "1:2:3"]]])
          else some (.elem "#document" [.elem "e2eventlist" []])⟩
        ⟨"host", "80", false, "u", "p", "enigma2"⟩
        [⟨0, [("enigma2_data_type", "current_eventtitle")], "str"⟩]
        ⟨5, [("enigma2_remote_command_id", "105")], "bool"⟩ "user"
        ⟨[], fun n => if n == 0 then some "ack"
              else if n == 1 then some "subs" else some "epg",
          0, [], [], [], true⟩).2.2).count (.fastLoop false)
      = 0 :=
  ⟨rfl, rfl, rfl⟩

/-- C7 (amended): dispatching remote command id `105` from a caller other
than the engine initiates one forced (uncached) event resolution followed by
one forced fast cycle, and `114` one forced fast cycle and no event
resolution; the counts are exact — one of each for `105`, one fast cycle and
zero event resolutions for `114` — for every dispatch that completes without
a propagated exception.  When a failure escapes the acknowledgement parse or
the event resolution, the dispatch aborts and the later steps are never
initiated. -/
theorem c7_dispatch_counts (env : Env) (d : Device) (fastItems : List Item)
    (it1 it2 : Item) (caller : String) (s1 s2 : EngineState)
    (hc : caller ≠ "Enigma2")
    (h1 : alistGet it1.conf "enigma2_remote_command_id" = some "105")
    (h2 : alistGet it2.conf "enigma2_remote_command_id" = some "114") :
    ((execute_item env d fastItems it1 caller s1).1 = .ok () →
      ((execute_item env d fastItems it1 caller s1).2.2).count
          (.eventUpdate false) = 1 ∧
      ((execute_item env d fastItems it1 caller s1).2.2).count
          (.fastLoop false) = 1) ∧
    ((execute_item env d fastItems it2 caller s2).1 = .ok () →
      ((execute_item env d fastItems it2 caller s2).2.2).count
          (.eventUpdate false) = 0 ∧
      ((execute_item env d fastItems it2 caller s2).2.2).count
          (.fastLoop false) = 1) := by
  have hcb : (caller == "Enigma2") = false := beq_eq_false_iff_ne.mpr hc
  constructor
  · unfold execute_item
    rw [hcb]
    rw [if_neg (by simp)]
    rw [h1]
    dsimp only
    rcases hrc : remote_control_command env d "105" s1 with ⟨r, sa⟩
    cases r with
    | error er =>
      intro hok
      exact absurd hok (by simp)
    | ok _ =>
      dsimp only
      rw [if_pos (by decide)]
      rcases hev : update_event_items env d fastItems false sa with ⟨r2, sb⟩
      cases r2 with
      | error er =>
        intro hok
        exact absurd hok (by simp)
      | ok _ =>
        dsimp only
        rcases hfl : update_loop_fast env d fastItems false sb with ⟨r3, sc⟩
        intro _
        exact ⟨rfl, rfl⟩
  · unfold execute_item
    rw [hcb]
    rw [if_neg (by simp)]
    rw [h2]
    dsimp only
    rcases hrc : remote_control_command env d "114" s2 with ⟨r, sa⟩
    cases r with
    | error er =>
      intro hok
      exact absurd hok (by simp)
    | ok _ =>
      dsimp only
      rw [if_neg (by decide), if_pos (by decide)]
      rcases hfl : update_loop_fast env d fastItems false sa with ⟨r3, sc⟩
      intro _
      exact ⟨rfl, rfl⟩

/-- C7 witness: the dispatch-count theorem applied to concrete command items
for ids `105` and `114`, an external caller, and an empty fast registry. -/
theorem c7_dispatch_counts_witness :
    ((execute_item ⟨fun _ => some (.elem "#document" [.elem "e2remotecontrol"
          [.elem "e2result" [.text "True"], .elem "e2resulttext" [.text "ok"]]])⟩
        ⟨"host", "80", false, "u", "p", "enigma2"⟩ []
        ⟨5, [("enigma2_remote_command_id", "105")], "bool"⟩ "user"
        ⟨[], fun _ => some "x", 0, [], [], [], true⟩).1 = .ok () →
      ((execute_item ⟨fun _ => some (.elem "#document" [.elem "e2remotecontrol"
          [.elem "e2result" [.text "True"], .elem "e2resulttext" [.text "ok"]]])⟩
        ⟨"host", "80", false, "u", "p", "enigma2"⟩ []
        ⟨5, [("enigma2_remote_command_id", "105")], "bool"⟩ "user"
        ⟨[], fun _ => some "x", 0, [], [], [], true⟩).2.2).count
          (.eventUpdate false) = 1 ∧
      ((execute_item ⟨fun _ => some (.elem "#document" [.elem "e2remotecontrol"
          [.elem "e2result" [.text "True"], .elem "e2resulttext" [.text "ok"]]])⟩
        ⟨"host", "80", false, "u", "p", "enigma2"⟩ []
        ⟨5, [("enigma2_remote_command_id", "105")], "bool"⟩ "user"
        ⟨[], fun _ => some "x", 0, [], [], [], true⟩).2.2).count
          (.fastLoop false) = 1) ∧
    ((execute_item ⟨fun _ => some (.elem "#document" [.elem "e2remotecontrol"
          [.elem "e2result" [.text "True"], .elem "e2resulttext" [.text "ok"]]])⟩
        ⟨"host", "80", false, "u", "p", "enigma2"⟩ []
        ⟨6, [("enigma2_remote_command_id", "114")], "bool"⟩ "user"
        ⟨[], fun _ => some "x", 0, [], [], [], true⟩).1 = .ok () →
      ((execute_item ⟨fun _ => some (.elem "#document" [.elem "e2remotecontrol"
          [.elem "e2result" [.text "True"], .elem "e2resulttext" [.text "ok"]]])⟩
        ⟨"host", "80", false, "u", "p", "enigma2"⟩ []
        ⟨6, [("enigma2_remote_command_id", "114")], "bool"⟩ "user"
        ⟨[], fun _ => some "x", 0, [], [], [], true⟩).2.2).count
          (.eventUpdate false) = 0 ∧
      ((execute_item ⟨fun _ => some (.elem "#document" [.elem "e2remotecontrol"
          [.elem "e2result" [.text "True"], .elem "e2resulttext" [.text "ok"]]])⟩
        ⟨"host", "80", false, "u", "p", "enigma2"⟩ []
        ⟨6, [("enigma2_remote_command_id", "114")], "bool"⟩ "user"
        ⟨[], fun _ => some "x", 0, [], [], [], true⟩).2.2).count
          (.fastLoop false) = 1) :=
  c7_dispatch_counts
    ⟨fun _ => some (.elem "#document" [.elem "e2remotecontrol"
      [.elem "e2result" [.text "True"], .elem "e2resulttext" [.text "ok"]]])⟩
    ⟨"host", "80", false, "u", "p", "enigma2"⟩ []
    ⟨5, [("enigma2_remote_command_id", "105")], "bool"⟩
    ⟨6, [("enigma2_remote_command_id", "114")], "bool"⟩
    "user"
    ⟨[], fun _ => some "x", 0, [], [], [], true⟩
    ⟨[], fun _ => some "x", 0, [], [], [], true⟩
    (by decide) rfl rfl

/-- C8: for a numeric-kind binding whose located element has non-empty text,
resolution writes the integer parse when the text parses as a Python int,
otherwise the float parse when it parses as a Python float, and otherwise
leaves the value slot unchanged, returning normally (no error raised). -/
theorem c8_numeric_coercion (env : Env) (d : Device) (it : Item)
    (s : EngineState) (dt page sfx content : String) (xml e : Xml)
    (rest : List Xml) (t : String)
    (hdt : alistGet it.conf "enigma2_data_type" = some dt)
    (hpage : alistGet it.conf "enigma2_page" = some page)
    (hsfx : url_suffix_map page = some sfx)
    (hcache : alistGet s.cache page = some content)
    (hparse : env.parse content = some xml)
    (hels : xml.getElems dt = e :: rest)
    (hfc : e.firstChild = some (.text t))
    (hty : it.ty = "num") (ht : t ≠ "") :
    (update env d it true s).1 = .ok () ∧
    ((update env d it true s).2).slots =
      (if represents_int t then slotSet s.slots it.id (.vInt (py_int_parse t))
       else if represents_float t then slotSet s.slots it.id (.vFloat t)
       else s.slots) := by
  have hcgr : cached_get_request page (build_url d sfx "") true s = s := by
    unfold cached_get_request
    rw [if_neg (by simp [hcache])]
  unfold update
  rw [hdt]
  dsimp only
  rw [hpage]
  dsimp only
  rw [hsfx]
  dsimp only
  rw [hcgr, hcache]
  dsimp only
  rw [hparse]
  dsimp only
  rw [hels]
  dsimp only
  rw [hty]
  rw [if_neg (by decide), if_pos (by decide)]
  rw [hfc]
  dsimp only
  by_cases hi : represents_int t
  · simp [hi, writeSlot]
  · by_cases hf : represents_float t
    · simp [hi, hf, writeSlot]
    · simp [hi, hf]

/-- C8 witness: the coercion theorem applied to element texts `"42"`
(integer 42 written), `"3.5"` (float written), and `"abc"` (slot left
unchanged, no error). -/
theorem c8_numeric_coercion_witness :
    ((update ⟨fun _ => some (.elem "#document"
          [.elem "e2abouts" [.elem "e2capacity" [.text "42"]]])⟩
        ⟨"host", "80", false, "u", "p", "enigma2"⟩
        ⟨0, [("enigma2_data_type", "e2capacity"), ("enigma2_page", "about")], "num"⟩
        true ⟨[("about", "body")], fun _ => some "x", 0, [], [], [], true⟩).1 = .ok () ∧
      ((update ⟨fun _ => some (.elem "#document"
          [.elem "e2abouts" [.elem "e2capacity" [.text "42"]]])⟩
        ⟨"host", "80", false, "u", "p", "enigma2"⟩
        ⟨0, [("enigma2_data_type", "e2capacity"), ("enigma2_page", "about")], "num"⟩
        true ⟨[("about", "body")], fun _ => some "x", 0, [], [], [], true⟩).2).slots
        = [(0, PyVal.vInt 42)]) ∧
    ((update ⟨fun _ => some (.elem "#document"
          [.elem "e2abouts" [.elem "e2capacity" [.text "3.5"]]])⟩
        ⟨"host", "80", false, "u", "p", "enigma2"⟩
        ⟨0, [("enigma2_data_type", "e2capacity"), ("enigma2_page", "about")], "num"⟩
        true ⟨[("about", "body")], fun _ => some "x", 0, [], [], [], true⟩).1 = .ok () ∧
      ((update ⟨fun _ => some (.elem "#document"
          [.elem "e2abouts" [.elem "e2capacity" [.text "3.5"]]])⟩
        ⟨"host", "80", false, "u", "p", "enigma2"⟩
        ⟨0, [("enigma2_data_type", "e2capacity"), ("enigma2_page", "about")], "num"⟩
        true ⟨[("about", "body")], fun _ => some "x", 0, [], [], [], true⟩).2).slots
        = [(0, PyVal.vFloat "3.5")]) ∧
    ((update ⟨fun _ => some (.elem "#document"
          [.elem "e2abouts" [.elem "e2capacity" [.text "abc"]]])⟩
        ⟨"host", "80", false, "u", "p", "enigma2"⟩
        ⟨0, [("enigma2_data_type", "e2capacity"), ("enigma2_page", "about")], "num"⟩
        true ⟨[("about", "body")], fun _ => some "x", 0, [], [], [], true⟩).1 = .ok () ∧
      ((update ⟨fun _ => some (.elem "#document"
          [.elem "e2abouts" [.elem "e2capacity" [.text "abc"]]])⟩
        ⟨"host", "80", false, "u", "p", "enigma2"⟩
        ⟨0, [("enigma2_data_type", "e2capacity"), ("enigma2_page", "about")], "num"⟩
        true ⟨[("about", "body")], fun _ => some "x", 0, [], [], [], true⟩).2).slots
        = []) :=
  ⟨c8_numeric_coercion
      ⟨fun _ => some (.elem "#document"
        [.elem "e2abouts" [.elem "e2capacity" [.text "42"]]])⟩
      ⟨"host", "80", false, "u", "p", "enigma2"⟩
      ⟨0, [("enigma2_data_type", "e2capacity"), ("enigma2_page", "about")], "num"⟩
      ⟨[("about", "body")], fun _ => some "x", 0, [], [], [], true⟩
      "e2capacity" "about" "/web/about" "body"
      (.elem "#document" [.elem "e2abouts" [.elem "e2capacity" [.text "42"]]])
      (.elem "e2capacity" [.text "42"]) [] "42"
      rfl rfl rfl rfl rfl rfl rfl rfl (by decide),
   c8_numeric_coercion
      ⟨fun _ => some (.elem "#document"
        [.elem "e2abouts" [.elem "e2capacity" [.text "3.5"]]])⟩
      ⟨"host", "80", false, "u", "p", "enigma2"⟩
      ⟨0, [("enigma2_data_type", "e2capacity"), ("enigma2_page", "about")], "num"⟩
      ⟨[("about", "body")], fun _ => some "x", 0, [], [], [], true⟩
      "e2capacity" "about" "/web/about" "body"
      (.elem "#document" [.elem "e2abouts" [.elem "e2capacity" [.text "3.5"]]])
      (.elem "e2capacity" [.text "3.5"]) [] "3.5"
      rfl rfl rfl rfl rfl rfl rfl rfl (by decide),
   c8_numeric_coercion
      ⟨fun _ => some (.elem "#document"
        [.elem "e2abouts" [.elem "e2capacity" [.text "abc"]]])⟩
      ⟨"host", "80", false, "u", "p", "enigma2"⟩
      ⟨0, [("enigma2_data_type", "e2capacity"), ("enigma2_page", "about")], "num"⟩
      ⟨[("about", "body")], fun _ => some "x", 0, [], [], [], true⟩
      "e2capacity" "about" "/web/about" "body"
      (.elem "#document" [.elem "e2abouts" [.elem "e2capacity" [.text "abc"]]])
      (.elem "e2capacity" [.text "abc"]) [] "abc"
      rfl rfl rfl rfl rfl rfl rfl rfl (by decide)⟩

/-- C9 counterexample: a text-kind binding whose data type is missing from a
well-formed response leaves the slot at its previous value — the sentinel
`"-"` is *not* written — refuting "writes '-' ... when the field is ...
missing from the response". -/
theorem c9_counterexample :
    slotGet ((update ⟨fun _ => some (.elem "#document" [.elem "e2abouts" []])⟩
        ⟨"host", "80", false, "u", "p", "enigma2"⟩
        ⟨0, [("enigma2_data_type", "e2model"), ("enigma2_page", "about")], "str"⟩
        true ⟨[("about", "body")], fun _ => some "x", 0, [], [],
          [(0, PyVal.vStr "old")], true⟩).2).slots 0
      ≠ some (PyVal.vStr "-") ∧
    slotGet ((update ⟨fun _ => some (.elem "#document" [.elem "e2abouts" []])⟩
        ⟨"host", "80", false, "u", "p", "enigma2"⟩
        ⟨0, [("enigma2_data_type", "e2model"), ("enigma2_page", "about")], "str"⟩
        true ⟨[("about", "body")], fun _ => some "x", 0, [], [],
          [(0, PyVal.vStr "old")], true⟩).2).slots 0
      = some (PyVal.vStr "old") := by
  exact ⟨by decide, rfl⟩

/-- C9 (amended): for a text-kind binding, resolution writes the sentinel
`"-"` when the located element's text is the literal `"N/A"` and when the
element is present but empty; when the field is missing from the response
the slot is left unchanged (an "attribute not available" condition is only
logged), and no error is raised in any of these cases. -/
theorem c9_text_coercion (env : Env) (d : Device) (it : Item)
    (s : EngineState) (dt page sfx content : String) (xml : Xml)
    (hdt : alistGet it.conf "enigma2_data_type" = some dt)
    (hpage : alistGet it.conf "enigma2_page" = some page)
    (hsfx : url_suffix_map page = some sfx)
    (hcache : alistGet s.cache page = some content)
    (hparse : env.parse content = some xml)
    (hty : it.ty = "str") :
    (∀ e rest, xml.getElems dt = e :: rest →
      ((e.firstChild = none →
        (update env d it true s).1 = .ok () ∧
        ((update env d it true s).2).slots = slotSet s.slots it.id (.vStr "-")) ∧
       (e.firstChild = some (.text "N/A") →
        (update env d it true s).1 = .ok () ∧
        ((update env d it true s).2).slots = slotSet s.slots it.id (.vStr "-")))) ∧
    (xml.getElems dt = [] →
      (update env d it true s).1 = .ok () ∧
      ((update env d it true s).2).slots = s.slots) := by
  have hcgr : cached_get_request page (build_url d sfx "") true s = s := by
    unfold cached_get_request
    rw [if_neg (by simp [hcache])]
  unfold update
  rw [hdt]
  dsimp only
  rw [hpage]
  dsimp only
  rw [hsfx]
  dsimp only
  rw [hcgr, hcache]
  dsimp only
  rw [hparse]
  dsimp only
  constructor
  · intro e rest hels
    rw [hels]
    dsimp only
    rw [hty]
    rw [if_neg (by decide), if_neg (by decide)]
    constructor
    · intro hfc
      rw [hfc]
      exact ⟨rfl, rfl⟩
    · intro hfc
      rw [hfc]
      exact ⟨rfl, rfl⟩
  · intro hels0
    rw [hels0]
    exact ⟨rfl, rfl⟩

/-- C9 witness: the amended text-coercion theorem applied to a present-but-
empty element and to a literal `"N/A"` element, both writing `"-"`. -/
theorem c9_text_coercion_witness :
    ((update ⟨fun _ => some (.elem "#document"
          [.elem "e2abouts" [.elem "e2model" []]])⟩
        ⟨"host", "80", false, "u", "p", "enigma2"⟩
        ⟨0, [("enigma2_data_type", "e2model"), ("enigma2_page", "about")], "str"⟩
        true ⟨[("about", "body")], fun _ => some "x", 0, [], [], [], true⟩).1 = .ok () ∧
      ((update ⟨fun _ => some (.elem "#document"
          [.elem "e2abouts" [.elem "e2model" []]])⟩
        ⟨"host", "80", false, "u", "p", "enigma2"⟩
        ⟨0, [("enigma2_data_type", "e2model"), ("enigma2_page", "about")], "str"⟩
        true ⟨[("about", "body")], fun _ => some "x", 0, [], [], [], true⟩).2).slots
        = [(0, PyVal.vStr "-")]) ∧
    ((update ⟨fun _ => some (.elem "#document"
          [.elem "e2abouts" [.elem "e2model" [.text "N/A"]]])⟩
        ⟨"host", "80", false, "u", "p", "enigma2"⟩
        ⟨0, [("enigma2_data_type", "e2model"), ("enigma2_page", "about")], "str"⟩
        true ⟨[("about", "body")], fun _ => some "x", 0, [], [], [], true⟩).1 = .ok () ∧
      ((update ⟨fun _ => some (.elem "#document"
          [.elem "e2abouts" [.elem "e2model" [.text "N/A"]]])⟩
        ⟨"host", "80", false, "u", "p", "enigma2"⟩
        ⟨0, [("enigma2_data_type", "e2model"), ("enigma2_page", "about")], "str"⟩
        true ⟨[("about", "body")], fun _ => some "x", 0, [], [], [], true⟩).2).slots
        = [(0, PyVal.vStr "-")]) :=
  ⟨((c9_text_coercion
      ⟨fun _ => some (.elem "#document" [.elem "e2abouts" [.elem "e2model" []]])⟩
      ⟨"host", "80", false, "u", "p", "enigma2"⟩
      ⟨0, [("enigma2_data_type", "e2model"), ("enigma2_page", "about")], "str"⟩
      ⟨[("about", "body")], fun _ => some "x", 0, [], [], [], true⟩
      "e2model" "about" "/web/about" "body"
      (.elem "#document" [.elem "e2abouts" [.elem "e2model" []]])
      rfl rfl rfl rfl rfl rfl).1 (.elem "e2model" []) [] rfl).1 rfl,
   ((c9_text_coercion
      ⟨fun _ => some (.elem "#document"
        [.elem "e2abouts" [.elem "e2model" [.text "N/A"]]])⟩
      ⟨"host", "80", false, "u", "p", "enigma2"⟩
      ⟨0, [("enigma2_data_type", "e2model"), ("enigma2_page", "about")], "str"⟩
      ⟨[("about", "body")], fun _ => some "x", 0, [], [], [], true⟩
      "e2model" "about" "/web/about" "body"
      (.elem "#document" [.elem "e2abouts" [.elem "e2model" [.text "N/A"]]])
      rfl rfl rfl rfl rfl rfl).1 (.elem "e2model" [.text "N/A"]) [] rfl).2 rfl⟩

/-- C10: in the audio-track enumeration, the active flag of a track whose
active element has non-empty text `t` is Python `t in 'True'` — true exactly
when `t` is a contiguous substring of the string `"True"` (so fragments such
as `"T"` or `"rue"` yield true while `"False"` yields false). -/
theorem c10_audio_active (d : Device) (t : String) (ht : t ≠ "") :
    (get_audio_tracks
        ⟨fun _ => some (.elem "#document" [.elem "e2audiotracks"
          [.elem "e2audiotrack" [.elem "e2audiotrackactive" [.text t]]]])⟩
        d ⟨[], fun _ => some "body", 0, [], [], [], true⟩).1
      = .ok (some [⟨none, none, none, some (pyIn t "True")⟩]) ∧
    (pyIn t "True" = true ↔ ∃ l r, "True".data = l ++ (t.data ++ r)) := by
  constructor
  · have hact : audioTrackActiveField
        (Xml.elem "e2audiotrack" [Xml.elem "e2audiotrackactive" [Xml.text t]])
        = .ok (some (pyIn t "True")) := by
      show (if pyIn t "True"
            then (Except.ok (some true) : Except PyErr (Option Bool))
            else .ok (some false)) = .ok (some (pyIn t "True"))
      by_cases hb : pyIn t "True" <;> simp [hb]
    have htrack : audioTrackFromEntry
        (Xml.elem "e2audiotrack" [Xml.elem "e2audiotrackactive" [Xml.text t]])
        = .ok ⟨none, none, none, some (pyIn t "True")⟩ := by
      unfold audioTrackFromEntry
      rw [show audioTrackTextField
          (Xml.elem "e2audiotrack" [Xml.elem "e2audiotrackactive" [Xml.text t]])
          "e2audiotrackdescription" = Except.ok none from rfl]
      dsimp only
      rw [show audioTrackIntField
          (Xml.elem "e2audiotrack" [Xml.elem "e2audiotrackactive" [Xml.text t]])
          "e2audiotrackid" = Except.ok none from rfl]
      dsimp only
      rw [show audioTrackIntField
          (Xml.elem "e2audiotrack" [Xml.elem "e2audiotrackactive" [Xml.text t]])
          "e2audiotrackpid" = Except.ok none from rfl]
      dsimp only
      rw [hact]
    have hlist : audioTracksFromEntries
        [Xml.elem "e2audiotrack" [Xml.elem "e2audiotrackactive" [Xml.text t]]]
        = .ok [⟨none, none, none, some (pyIn t "True")⟩] := by
      unfold audioTracksFromEntries
      rw [htrack]
      rfl
    unfold get_audio_tracks
    dsimp only [sessionGet]
    rw [show Xml.getElems (.elem "#document" [.elem "e2audiotracks"
        [.elem "e2audiotrack" [.elem "e2audiotrackactive" [.text t]]]])
        "e2audiotrack"
        = [Xml.elem "e2audiotrack" [Xml.elem "e2audiotrackactive" [Xml.text t]]]
        from rfl]
    rw [hlist]
  · exact substringList_iff t.data "True".data

/-- C10 witness: the containment theorem applied at the fragment `"rue"`,
which is not equal to `"True"` but is contained in it, so the track is
reported active. -/
theorem c10_audio_active_witness :
    (get_audio_tracks
        ⟨fun _ => some (.elem "#document" [.elem "e2audiotracks"
          [.elem "e2audiotrack" [.elem "e2audiotrackactive" [.text "rue"]]]])⟩
        ⟨"host", "80", false, "u", "p", "enigma2"⟩
        ⟨[], fun _ => some "body", 0, [], [], [], true⟩).1
      = .ok (some [⟨none, none, none, some true⟩]) ∧
    (true = true ↔ ∃ l r, "True".data = l ++ ("rue".data ++ r)) :=
  c10_audio_active ⟨"host", "80", false, "u", "p", "enigma2"⟩ "rue" (by decide)

end Enigma2Model
